import Mathlib

/-!
Shallow embedding of `src/wgpu-core/src/command/render.rs` (render-pass
recording and validation core).

Conventions:
* Machine integers are `Nat` (or `Int` for signed values) with explicit
  wrapping: `u32` operations reduce modulo `2 ^ 32`, `u64` modulo `2 ^ 64`
  (Rust release-profile semantics: arithmetic wraps, `cfg!(debug_assertions)`
  blocks are disabled; the flag is kept explicit below).
* `f32` values that only flow through the code (clear colors, depth ranges,
  viewport coordinates) are modelled by `Rat` carrying the real value.
* Rust panics (`assert!`, `unwrap`, out-of-bounds indexing) are modelled by
  `Option`: `none` is a panic, which is fatal to the pass.
* Backend (`hal`) command-buffer methods are modelled by a trace of
  `BackendCall` values recorded in emission order.
* Collaborator modules that are not part of `src/` (`bind.rs`, `track.rs`,
  `conv.rs`, `device.rs` constants, the hal layer) are modelled from the
  spec; each such definition carries a doc comment saying so.
-/

namespace WgpuRender

abbrev BufferId := Nat
abbrev BindGroupId := Nat
abbrev RenderPipelineId := Nat
abbrev PipelineLayoutId := Nat
abbrev BindGroupLayoutId := Nat
abbrev TextureViewId := Nat
abbrev TextureId := Nat
abbrev BufferAddress := Nat

/-- `u32::MAX`, the `!0` initial value in `VertexState::update_limits`. -/
def u32MAX : Nat := 2 ^ 32 - 1

/-- Wrapping `u32` addition (Rust release semantics). -/
def u32add (a b : Nat) : Nat := (a + b) % 2 ^ 32

/-- `as u32` truncating cast from a wider integer. -/
def u32trunc (a : Nat) : Nat := a % 2 ^ 32

/-- Wrapping `u64` subtraction (Rust release semantics). -/
def u64sub (a b : Nat) : Nat := (a % 2 ^ 64 + 2 ^ 64 - b % 2 ^ 64) % 2 ^ 64

/-- `cfg!(debug_assertions)`: the embedding follows the release profile. -/
def debug_assertions : Bool := false

/-- Modelled from the spec: `BIND_BUFFER_ALIGNMENT` device constant
(`device.rs` is not under `src/`; §8 scenario 5 uses 256). -/
def BIND_BUFFER_ALIGNMENT : Nat := 256

/-- Modelled from the spec: `MAX_VERTEX_BUFFERS` device constant
(`device.rs` is not under `src/`; the spec leaves the value open, 8 here). -/
def MAX_VERTEX_BUFFERS : Nat := 8

/-- Buffer usage bit `INDEX` (single-bit flags, values as in `resource.rs`). -/
def BufferUsage_INDEX : Nat := 16

/-- Buffer usage bit `VERTEX`. -/
def BufferUsage_VERTEX : Nat := 32

/-- Buffer usage bit `INDIRECT`. -/
def BufferUsage_INDIRECT : Nat := 256

/-- Texture usage bit `OUTPUT_ATTACHMENT`. -/
def TextureUsage_OUTPUT_ATTACHMENT : Nat := 16

/-- `usage.contains(bit)` for single-bit flags. -/
def usageContains (usage bit : Nat) : Bool := usage &&& bit = bit

inductive LoadOp
  | Clear
  | Load
deriving DecidableEq

inductive StoreOp
  | Clear
  | Store
deriving DecidableEq

inductive IndexFormat
  | Uint16
  | Uint32
deriving DecidableEq

inductive InputStepMode
  | Vertex
  | Instance
deriving DecidableEq

/-- `wgpu::Color` (f64 channels carried as exact rationals). -/
structure Color where
  r : Rat
  g : Rat
  b : Rat
  a : Rat
deriving DecidableEq

structure Rect (α : Type) where
  x : α
  y : α
  w : α
  h : α
deriving DecidableEq

inductive OptionalState
  | Unused
  | Required
  | Set
deriving DecidableEq

/-- `OptionalState::require`: lifts only `Unused → Required`. -/
def OptionalState.require (s : OptionalState) (req : Bool) : OptionalState :=
  if req ∧ s = OptionalState.Unused then OptionalState.Required else s

inductive DrawError
  | MissingBlendColor
  | MissingStencilReference
  | IncompatibleBindGroup (index : Nat)
deriving DecidableEq

/-- Channel classification of a texture format (`hal::format::ChannelType`),
used only to pick the clear-color union variant. -/
inductive ChannelType
  | Unorm
  | Snorm
  | Ufloat
  | Sfloat
  | Uscaled
  | Sscaled
  | Srgb
  | Sint
  | Uint
deriving DecidableEq

/-- Texture format: an opaque code plus its base channel type. -/
structure TextureFormat where
  code : Nat
  channel : ChannelType
deriving DecidableEq

/-! ## Binder (modelled from the spec: `command/bind.rs` is not under `src/`) -/

inductive LayoutChange
  | Match (bind_group_id : BindGroupId) (offsets : List Nat)
  | Unchanged
  | Mismatch
deriving DecidableEq

/-- Modelled from the spec: a Binder slot records the bind-group layout id
expected by the current pipeline and the currently bound group (id, the
group's layout id, dynamic offsets) — §3 and §4.3. -/
structure BinderEntry where
  expected_layout_id : Option BindGroupLayoutId
  provided : Option (BindGroupId × BindGroupLayoutId × List Nat)
deriving DecidableEq

/-- Modelled from the spec: a slot is satisfied when it is not expected by
the pipeline, or the bound group's layout matches the expected layout. -/
def BinderEntry.is_valid (e : BinderEntry) : Bool :=
  match e.expected_layout_id, e.provided with
  | none, _ => true
  | some exp, some (_, lay, _) => exp = lay
  | some _, none => false

/-- Modelled from the spec: `expect_layout(slot, bgl_id)` — records the new
expectation; reports `Match` when the already-bound group satisfies the newly
expected layout, `Unchanged` when the expectation did not change, `Mismatch`
otherwise (§3, §4.3). -/
def BinderEntry.expect_layout (e : BinderEntry) (bgl_id : BindGroupLayoutId) :
    BinderEntry × LayoutChange :=
  if e.expected_layout_id = some bgl_id then
    (e, LayoutChange.Unchanged)
  else
    let e2 : BinderEntry := { e with expected_layout_id := some bgl_id }
    match e.provided with
    | some (bg, lay, offs) =>
        if lay = bgl_id then (e2, LayoutChange.Match bg offs) else (e2, LayoutChange.Mismatch)
    | none => (e2, LayoutChange.Mismatch)

structure Binder where
  pipeline_layout_id : Option PipelineLayoutId
  entries : List BinderEntry
deriving DecidableEq

/-- Modelled from the spec: a fresh Binder with `max_bind_groups` empty slots. -/
def Binder.new (max_bind_groups : Nat) : Binder :=
  ⟨none, List.replicate max_bind_groups ⟨none, none⟩⟩

/-- Modelled from the spec: bit `i` of `invalid_mask()` is set iff slot `i`
is expected by the pipeline but not satisfied by a compatible bound group. -/
def Binder.invalid_mask (b : Binder) : Nat :=
  (List.range b.entries.length).foldl
    (fun m i => if (b.entries.getD i ⟨none, none⟩).is_valid then m else m ||| (1 <<< i)) 0

/-- Modelled from the spec: `reset_expectations(length)` clears the expected
layout of every slot at position `length` or beyond. -/
def Binder.reset_expectations (b : Binder) (length : Nat) : Binder :=
  { b with entries :=
      b.entries.take length ++
        (b.entries.drop length).map (fun e => { e with expected_layout_id := none }) }

/-- Modelled from the spec: `provide_entry(slot, bg_id, bind_group, offsets)`
stores the group at the slot; when a pipeline layout is current and the slot
becomes newly satisfied, returns the pipeline layout id plus the follow-up
`(bg_id, offsets)` run of already-satisfied slots after it (§4.3). -/
def Binder.provide_entry (b : Binder) (index : Nat) (bind_group_id : BindGroupId)
    (bg_layout_id : BindGroupLayoutId) (offsets : List Nat) :
    Binder × Option (PipelineLayoutId × List (BindGroupId × List Nat)) :=
  let old := b.entries.getD index ⟨none, none⟩
  let entry : BinderEntry := { old with provided := some (bind_group_id, bg_layout_id, offsets) }
  let b2 : Binder := { b with entries := b.entries.set index entry }
  match b.pipeline_layout_id with
  | some pl_id =>
      if entry.is_valid ∧ ¬ old.is_valid then
        let follow_ups :=
          ((b2.entries.drop (index + 1)).takeWhile BinderEntry.is_valid).filterMap
            (fun e => e.provided.map (fun p => (p.1, p.2.2)))
        (b2, some (pl_id, follow_ups))
      else (b2, none)
  | none => (b2, none)

/-- `u32::trailing_zeros` via bounded recursion on a fuel argument. -/
def ctzAux : Nat → Nat → Nat
  | 0, _ => 0
  | fuel + 1, n => if n % 2 = 1 then 0 else ctzAux fuel (n / 2) + 1

/-- `trailing_zeros()` of a (≤ 32-bit) mask. -/
def trailing_zeros32 (n : Nat) : Nat := ctzAux 32 n

/-! ## Trackers (modelled from the spec: `track.rs` is not under `src/`) -/

/-- Modelled from the spec: the buffer tracker records, per buffer id, the
union of usages under which the pass used it; `use_extend` merges a usage in. -/
def bufferUseExtend (states : List (BufferId × Nat)) (id : BufferId) (usage : Nat) :
    List (BufferId × Nat) :=
  if states.any (fun s => decide (s.1 = id)) then
    states.map (fun s => if s.1 = id then (s.1, s.2 ||| usage) else s)
  else states ++ [(id, usage)]

/-- Modelled from the spec: the texture tracker maps a (texture, subresource
range) key to the last recorded usage; `query` reads it. -/
def textureQuery (states : List ((TextureId × Nat) × Nat)) (id : TextureId) (range : Nat) :
    Option Nat :=
  (states.find? (fun s => decide (s.1 = (id, range)))).map (fun s => s.2)

/-- Modelled from the spec: `change_replace` overwrites (or first records) the
usage at a (texture, range) key. -/
def textureChangeReplace (states : List ((TextureId × Nat) × Nat)) (id : TextureId)
    (range : Nat) (usage : Nat) : List ((TextureId × Nat) × Nat) :=
  if states.any (fun s => decide (s.1 = (id, range))) then
    states.map (fun s => if s.1 = (id, range) then (s.1, usage) else s)
  else states ++ [((id, range), usage)]

/-- Modelled from the spec: id-set style tracker for views / bind groups;
`use_extend` inserts the id if absent. -/
def idUseExtend (states : List Nat) (id : Nat) : List Nat :=
  if id ∈ states then states else states ++ [id]

/-- Modelled from the spec: `init` takes a fresh reference; it succeeds (and
records the id) only on the id's first use in this tracker. -/
def idInit (states : List Nat) (id : Nat) : Bool × List Nat :=
  if id ∈ states then (false, states) else (true, states ++ [id])

/-- Modelled from the spec: a TrackerSet bundles per-kind trackers
(buffers, textures, views, bind groups). -/
structure TrackerSet where
  buffers : List (BufferId × Nat)
  textures : List ((TextureId × Nat) × Nat)
  views : List TextureViewId
  bind_groups : List BindGroupId
deriving DecidableEq

def TrackerSet.empty : TrackerSet := ⟨[], [], [], []⟩

/-- Modelled from the spec: `merge_extend` folds every record of `other` into
`t` with the per-kind extend rules. -/
def TrackerSet.merge_extend (t other : TrackerSet) : TrackerSet :=
  { buffers := other.buffers.foldl (fun acc s => bufferUseExtend acc s.1 s.2) t.buffers
    textures := other.textures.foldl (fun acc s => textureChangeReplace acc s.1.1 s.1.2 s.2) t.textures
    views := other.views.foldl idUseExtend t.views
    bind_groups := other.bind_groups.foldl idUseExtend t.bind_groups }

def TrackerSet.useExtendBuffer (t : TrackerSet) (id : BufferId) (usage : Nat) : TrackerSet :=
  { t with buffers := bufferUseExtend t.buffers id usage }

def TrackerSet.useExtendBindGroup (t : TrackerSet) (id : BindGroupId) : TrackerSet :=
  { t with bind_groups := idUseExtend t.bind_groups id }

/-! ## Resources and registry environment -/

structure Buffer where
  size : BufferAddress
  usage : Nat
deriving DecidableEq

structure BindGroup where
  layout_id : BindGroupLayoutId
  dynamic_count : Nat
  used : TrackerSet
deriving DecidableEq

structure PipelineLayout where
  bind_group_layout_ids : List BindGroupLayoutId
deriving DecidableEq

structure RenderPassContext where
  colors : List TextureFormat
  resolves : List TextureFormat
  depth_stencil : Option TextureFormat
deriving DecidableEq

/-- Modelled from the spec: contexts compare by elementwise format equality
to decide pipeline/pass compatibility (`device.rs` is not under `src/`). -/
def RenderPassContext.compatible (a b : RenderPassContext) : Bool := a = b

structure RenderPipeline where
  pass_context : RenderPassContext
  sample_count : Nat
  flags_blend_color : Bool
  flags_stencil_reference : Bool
  index_format : IndexFormat
  vertex_strides : List (Nat × InputStepMode)
  layout_id : PipelineLayoutId
deriving DecidableEq

inductive TextureViewInner
  | Native (source_id : TextureId)
  | SwapChain
deriving DecidableEq

structure TextureView where
  inner : TextureViewInner
  format : TextureFormat
  samples : Nat
  extent : Nat × Nat
  range : Nat
deriving DecidableEq

structure Texture where
  usage : Nat
deriving DecidableEq

/-- The object registry ("hub"): total maps from ids to resources. -/
structure Env where
  buffers : BufferId → Buffer
  bind_groups : BindGroupId → BindGroup
  pipelines : RenderPipelineId → RenderPipeline
  pipeline_layouts : PipelineLayoutId → PipelineLayout
  views : TextureViewId → TextureView
  textures : TextureId → Texture
  samples_count_limit : Nat

/-! ## Conversion helpers (modelled from the spec: `conv.rs` is not in `src/`) -/

inductive AttachmentLoadOp
  | Load
  | Clear
  | DontCare
deriving DecidableEq

inductive AttachmentStoreOp
  | Store
  | DontCare
deriving DecidableEq

/-- Modelled from the spec: `map_load_store_ops`. -/
def map_load_store_ops (load : LoadOp) (store : StoreOp) :
    AttachmentLoadOp × AttachmentStoreOp :=
  ((match load with
    | LoadOp.Clear => AttachmentLoadOp.Clear
    | LoadOp.Load => AttachmentLoadOp.Load),
   (match store with
    | StoreOp.Store => AttachmentStoreOp.Store
    | StoreOp.Clear => AttachmentStoreOp.DontCare))

def ATTACHMENT_OPS_DONT_CARE : AttachmentLoadOp × AttachmentStoreOp :=
  (AttachmentLoadOp.DontCare, AttachmentStoreOp.DontCare)

/-- Backend image layout (`hal::image::Layout`); `derived` stands for the
layout `conv::map_texture_state(usage, aspects).1` computes from a usage. -/
inductive ImageLayout
  | Undefined
  | Present
  | ColorAttachmentOptimal
  | DepthStencilAttachmentOptimal
  | derived (usage : Nat) (aspects : Nat)
deriving DecidableEq

/-- Aspect mask `COLOR`. -/
def Aspects_COLOR : Nat := 1

/-- Aspect mask `DEPTH | STENCIL`. -/
def Aspects_DEPTH_STENCIL : Nat := 6

/-- Modelled from the spec: the layout component of `conv::map_texture_state`,
kept symbolic — the begin logic only distinguishes it from the optimal and
swap-chain layouts. -/
def map_texture_state_layout (usage : Nat) (aspects : Nat) : ImageLayout :=
  ImageLayout.derived usage aspects

/-- Modelled from the spec: `map_texture_format` (device features do not
change the modelled format). -/
def map_texture_format (f : TextureFormat) : TextureFormat := f

/-- Modelled from the spec: `map_index_format`. -/
def map_index_format (f : IndexFormat) : IndexFormat := f

/-- Modelled from the spec: `map_color_f32` (value carried unchanged). -/
def map_color_f32 (c : Color) : Color := c

/-- Modelled from the spec: `map_color_i32`. -/
def map_color_i32 (c : Color) : Color := c

/-- Modelled from the spec: `map_color_u32`. -/
def map_color_u32 (c : Color) : Color := c

/-! ## i16 conversions used by SetViewport / SetScissor -/

def I16_MAX : Int := 32767

def I16_MIN : Int := -32768

/-- `i16::try_from(v).unwrap_or(d)`: the value if representable, else `d`. -/
def i16_try_from_or (v : Int) (d : Int) : Int :=
  if I16_MIN ≤ v ∧ v ≤ I16_MAX then v else d

/-- `u32 as i16` wrapping cast (used for the default full-extent rect). -/
def i16_wrap_of_u32 (n : Nat) : Int :=
  let m : Nat := n % 65536
  if m < 32768 then (m : Int) else (m : Int) - 65536

/-- `f32::round`: round half away from zero, on the rational value. -/
def f32_round (q : Rat) : Int :=
  if 0 ≤ q then ⌊q + 1 / 2⌋ else -⌊1 / 2 - q⌋

/-- `as i64` on a rounded float saturates at the i64 bounds. -/
def i64_sat (v : Int) : Int :=
  if v < -(2 ^ 63) then -(2 ^ 63) else if v > 2 ^ 63 - 1 then 2 ^ 63 - 1 else v

/-- The full viewport clamp `i16::try_from(x.round() as i64).unwrap_or(d)`. -/
def viewport_clamp (q : Rat) (d : Int) : Int :=
  i16_try_from_or (i64_sat (f32_round q)) d

/-! ## Commands, pass descriptors and the backend-call trace -/

inductive RenderCommand
  | SetBindGroup (index : Nat) (bind_group_id : BindGroupId)
      (offset_start : Nat) (offset_end : Nat)
  | SetPipeline (pipeline_id : RenderPipelineId)
  | SetIndexBuffer (buffer_id : BufferId) (offset : BufferAddress)
  | SetVertexBuffer (index : Nat) (buffer_id : BufferId) (offset : BufferAddress)
  | SetBlendValue (color : Color)
  | SetStencilReference (value : Nat)
  | SetViewport (rect : Rect Rat) (depth_start : Rat) (depth_end : Rat)
  | SetScissor (rect : Rect Nat)
  | Draw (vertex_count instance_count first_vertex first_instance : Nat)
  | DrawIndexed (index_count instance_count first_index : Nat)
      (base_vertex : Int) (first_instance : Nat)
  | DrawIndirect (buffer_id : BufferId) (offset : BufferAddress)
  | DrawIndexedIndirect (buffer_id : BufferId) (offset : BufferAddress)
deriving DecidableEq

structure ColorAttachment where
  attachment : TextureViewId
  resolve_target : Option TextureViewId
  load_op : LoadOp
  store_op : StoreOp
  clear_color : Color
deriving DecidableEq

structure DepthStencilAttachment where
  attachment : TextureViewId
  depth_load_op : LoadOp
  depth_store_op : StoreOp
  clear_depth : Rat
  stencil_load_op : LoadOp
  stencil_store_op : StoreOp
  clear_stencil : Nat
deriving DecidableEq

structure StandaloneRenderPass where
  color_attachments : List ColorAttachment
  depth_stencil_attachment : Option DepthStencilAttachment
  commands : List RenderCommand
  offsets : List BufferAddress
deriving DecidableEq

/-- `hal::pso::Rect` (i16 fields). -/
structure HalRect where
  x : Int
  y : Int
  w : Int
  h : Int
deriving DecidableEq

inductive ClearValue
  | color_f32 (c : Color)
  | color_i32 (c : Color)
  | color_u32 (c : Color)
  | depth_stencil (depth : Rat) (stencil : Nat)
deriving DecidableEq

/-- `hal::pass::Attachment` as it enters the RenderPassKey. -/
structure HalAttachment where
  format : TextureFormat
  samples : Nat
  ops : AttachmentLoadOp × AttachmentStoreOp
  stencil_ops : AttachmentLoadOp × AttachmentStoreOp
  layouts : ImageLayout × ImageLayout
deriving DecidableEq

structure RenderPassKey where
  colors : List HalAttachment
  resolves : List HalAttachment
  depth_stencil : Option HalAttachment
deriving DecidableEq

structure FramebufferKey where
  colors : List TextureViewId
  resolves : List TextureViewId
  depth_stencil : Option TextureViewId
deriving DecidableEq

/-- One backend (`hal`) command-buffer call, recorded in emission order. -/
inductive BackendCall
  | begin_render_pass (key : RenderPassKey) (fb : FramebufferKey)
      (rect : HalRect) (clears : List ClearValue)
  | end_render_pass
  | bind_graphics_pipeline (id : RenderPipelineId)
  | bind_graphics_descriptor_sets (layout : PipelineLayoutId) (first_set : Nat)
      (sets : List BindGroupId) (offsets : List Nat)
  | bind_index_buffer (buffer : BufferId) (offset : Nat) (format : IndexFormat)
  | bind_vertex_buffers (first_binding : Nat) (buffers : List (BufferId × Nat))
  | set_viewports (first : Nat) (viewports : List (HalRect × Rat × Rat))
  | set_scissors (first : Nat) (rects : List HalRect)
  | set_blend_constants (c : Color)
  | set_stencil_reference (value : Nat)
  | draw (v_start v_end i_start i_end : Nat)
  | draw_indexed (i_start i_end : Nat) (base_vertex : Int) (inst_start inst_end : Nat)
  | draw_indirect (buffer : BufferId) (offset : Nat) (draw_count stride : Nat)
  | draw_indexed_indirect (buffer : BufferId) (offset : Nat) (draw_count stride : Nat)
deriving DecidableEq

/-! ## Draw-readiness state (render.rs lines 180-268) -/

structure IndexState where
  bound_buffer_view : Option (BufferId × BufferAddress × BufferAddress)
  format : IndexFormat
  limit : Nat
deriving DecidableEq

/-- `IndexState::update_limit`: `((range.end - range.start) >> shift) as u32`
when a buffer view is bound, else 0. -/
def IndexState.update_limit (s : IndexState) : IndexState :=
  { s with limit :=
      match s.bound_buffer_view with
      | some (_, rstart, rend) =>
          let shift := match s.format with
            | IndexFormat.Uint16 => 1
            | IndexFormat.Uint32 => 2
          u32trunc (u64sub rend rstart >>> shift)
      | none => 0 }

structure VertexBufferState where
  total_size : BufferAddress
  stride : BufferAddress
  rate : InputStepMode
deriving DecidableEq

def VertexBufferState.EMPTY : VertexBufferState := ⟨0, 0, InputStepMode.Vertex⟩

instance : Inhabited VertexBufferState := ⟨VertexBufferState.EMPTY⟩

structure VertexState where
  inputs : List VertexBufferState
  vertex_limit : Nat
  instance_limit : Nat
deriving DecidableEq

/-- `VertexState::update_limits`: reset both limits to `!0` then take the
minimum of `(total_size / stride) as u32` over each slot with nonzero stride,
keyed by the slot's step rate. -/
def VertexState.update_limits (s : VertexState) : VertexState :=
  let acc := s.inputs.foldl
    (fun (acc : Nat × Nat) vbs =>
      if vbs.stride = 0 then acc
      else
        let limit := u32trunc (vbs.total_size / vbs.stride)
        match vbs.rate with
        | InputStepMode.Vertex => (min acc.1 limit, acc.2)
        | InputStepMode.Instance => (acc.1, min acc.2 limit))
    (u32MAX, u32MAX)
  { s with vertex_limit := acc.1, instance_limit := acc.2 }

/-- The `State` owned by `command_encoder_run_render_pass` (lines 241-268). -/
structure State where
  binder : Binder
  blend_color : OptionalState
  stencil_reference : OptionalState
  index : IndexState
  vertex : VertexState
deriving DecidableEq

/-- `State::is_ready` (lines 250-268): invalid bind mask first (reporting the
lowest set bit), then blend color, then stencil reference. -/
def State.is_ready (s : State) : Except DrawError Unit :=
  let bind_mask := s.binder.invalid_mask
  if bind_mask ≠ 0 then
    Except.error (DrawError.IncompatibleBindGroup (trailing_zeros32 bind_mask))
  else if s.blend_color = OptionalState.Required then
    Except.error DrawError.MissingBlendColor
  else if s.stencil_reference = OptionalState.Required then
    Except.error DrawError.MissingStencilReference
  else Except.ok ()

end WgpuRender

namespace WgpuRender

/-! ## SetPipeline sub-blocks

The source duplicates the SetPipeline and SetBindGroup bodies verbatim
between the encoded arm of `command_encoder_run_render_pass` and the
incremental `render_pass_set_pipeline` / `render_pass_set_bind_group`
(a duplication the spec itself records in §9); each duplicated block is
embedded once and referenced from both translations. -/

/-- The per-slot rebind walk of SetPipeline (lines 933-957 / 1460-1484):
walk entries zipped with the layout's bind-group-layout ids, rebinding on
`Match` while still compatible, clearing compatibility on `Mismatch`. -/
def rebindWalk (pl_id : PipelineLayoutId) :
    List BinderEntry → List BindGroupLayoutId → Nat → Bool →
    List BinderEntry × List BackendCall
  | es, [], _, _ => (es, [])
  | [], _ :: _, _, _ => ([], [])
  | e :: es, bgl :: bgls, i, compat =>
      let ec := e.expect_layout bgl
      match ec.2 with
      | LayoutChange.Match bg offs =>
          let rest := rebindWalk pl_id es bgls (i + 1) compat
          if compat then
            (ec.1 :: rest.1,
             BackendCall.bind_graphics_descriptor_sets pl_id i [bg] (offs.map u32trunc)
               :: rest.2)
          else (ec.1 :: rest.1, rest.2)
      | LayoutChange.Unchanged =>
          let rest := rebindWalk pl_id es bgls (i + 1) compat
          (ec.1 :: rest.1, rest.2)
      | LayoutChange.Mismatch =>
          let rest := rebindWalk pl_id es bgls (i + 1) false
          (ec.1 :: rest.1, rest.2)

/-- The "Rebind resource" block of SetPipeline (lines 925-958 / 1452-1485). -/
def binderChangePipeline (env : Env) (binder : Binder) (pipeline : RenderPipeline) :
    Binder × List BackendCall :=
  if binder.pipeline_layout_id ≠ some pipeline.layout_id then
    let pipeline_layout := env.pipeline_layouts pipeline.layout_id
    let b : Binder := { binder with pipeline_layout_id := some pipeline.layout_id }
    let b := b.reset_expectations pipeline_layout.bind_group_layout_ids.length
    let walk := rebindWalk pipeline.layout_id b.entries
      pipeline_layout.bind_group_layout_ids 0 true
    ({ b with entries := walk.1 }, walk.2)
  else (binder, [])

/-- The index-format rebind block of SetPipeline (lines 960-981 / 1487-1510):
when the pipeline changes the index format, update the format, recompute the
limit, and re-issue the backend bind for a currently bound index buffer. -/
def indexFormatRebind (index : IndexState) (trackers : TrackerSet)
    (pipeline : RenderPipeline) : IndexState × TrackerSet × List BackendCall :=
  if index.format ≠ pipeline.index_format then
    let ix := IndexState.update_limit { index with format := pipeline.index_format }
    match ix.bound_buffer_view with
    | some (buffer_id, rstart, _) =>
        (ix, trackers.useExtendBuffer buffer_id BufferUsage_INDEX,
         [BackendCall.bind_index_buffer buffer_id rstart (map_index_format ix.format)])
    | none => (ix, trackers, [])
  else (index, trackers, [])

/-- First loop of the vertex-stride propagation (lines 983-991 / 1512-1520):
copy `(stride, rate)` slotwise from the pipeline, stopping at the shorter. -/
def copyStrides : List VertexBufferState → List (Nat × InputStepMode) →
    List VertexBufferState
  | inputs, [] => inputs
  | [], _ => []
  | vbs :: inputs, (stride, rate) :: strides =>
      { vbs with stride := stride, rate := rate } :: copyStrides inputs strides

/-- The vertex-stride propagation block of SetPipeline (lines 982-996 /
1511-1525): copy strides, reset all higher slots to `(0, Vertex)`, recompute
limits; the slice `inputs[len ..]` panics when `len` exceeds the slot count. -/
def vertexStridesUpdate (vertex : VertexState) (pipeline : RenderPipeline) :
    Option VertexState :=
  if pipeline.vertex_strides.length ≤ vertex.inputs.length then
    let inputs := copyStrides vertex.inputs pipeline.vertex_strides
    let inputs := inputs.take pipeline.vertex_strides.length ++
      (inputs.drop pipeline.vertex_strides.length).map
        (fun vbs => { vbs with stride := 0, rate := InputStepMode.Vertex })
    some (VertexState.update_limits { vertex with inputs := inputs })
  else none

/-- The SetPipeline body (encoded arm lines 904-997, incremental
`render_pass_set_pipeline` lines 1432-1525): compatibility asserts, optional
state requirements, pipeline bind, binder rebind protocol, index-format
rebind and vertex-stride propagation. -/
def setPipelineCore (env : Env) (context : RenderPassContext) (sample_count : Nat)
    (binder : Binder) (blend : OptionalState) (stencil : OptionalState)
    (index : IndexState) (vertex : VertexState) (trackers : TrackerSet)
    (pipeline_id : RenderPipelineId) :
    Option (Binder × OptionalState × OptionalState × IndexState × VertexState ×
      TrackerSet × List BackendCall) :=
  let pipeline := env.pipelines pipeline_id
  if ¬ context.compatible pipeline.pass_context then none
  else if pipeline.sample_count ≠ sample_count then none
  else
    let blend := blend.require pipeline.flags_blend_color
    let stencil := stencil.require pipeline.flags_stencil_reference
    let rebind := binderChangePipeline env binder pipeline
    let irebind := indexFormatRebind index trackers pipeline
    match vertexStridesUpdate vertex pipeline with
    | some vertex =>
        some (rebind.1, blend, stencil, irebind.1, vertex, irebind.2.1,
          BackendCall.bind_graphics_pipeline pipeline_id :: (rebind.2 ++ irebind.2.2))
    | none => none

/-- The SetBindGroup body (encoded arm lines 864-903, incremental
`render_pass_set_bind_group` lines 1175-1214): track the group, check the
dynamic-offset count (and, in debug builds, offset alignment), merge the
group's own tracker, and bind the group plus its follow-ups in one backend
call with concatenated (u32-cast) offsets. The two source sites interleave
the panic checks in a different order, which the `Option` panic model does
not distinguish. -/
def setBindGroupCore (env : Env) (binder : Binder) (trackers : TrackerSet)
    (index : Nat) (bind_group_id : BindGroupId) (offsets : List Nat) :
    Option (Binder × TrackerSet × List BackendCall) :=
  let bind_group := env.bind_groups bind_group_id
  let trackers := trackers.useExtendBindGroup bind_group_id
  if bind_group.dynamic_count ≠ offsets.length then none
  else if debug_assertions ∧ offsets.any (fun off => off % BIND_BUFFER_ALIGNMENT ≠ 0) then none
  else
    let trackers := trackers.merge_extend bind_group.used
    let pe := binder.provide_entry index bind_group_id bind_group.layout_id offsets
    match pe.2 with
    | some (pipeline_layout_id, follow_ups) =>
        some (pe.1, trackers,
          [BackendCall.bind_graphics_descriptor_sets pipeline_layout_id index
            (bind_group_id :: follow_ups.map (fun f => f.1))
            ((offsets ++ (follow_ups.map (fun f => f.2)).flatten).map u32trunc)])
    | none => some (pe.1, trackers, [])

/-! ## The encoded command interpreter (lines 862-1157) -/

/-- One iteration of the encoded command loop of
`command_encoder_run_render_pass` (lines 862-1157). -/
def runRenderCommand (env : Env) (context : RenderPassContext) (sample_count : Nat)
    (pool : List BufferAddress) (st : State) (trackers : TrackerSet) :
    RenderCommand → Option (State × TrackerSet × List BackendCall)
  | RenderCommand.SetBindGroup index bind_group_id ostart oend =>
      -- `pass.offsets[start as usize .. end as usize]` panics out of bounds
      if ostart ≤ oend ∧ oend ≤ pool.length then
        match setBindGroupCore env st.binder trackers index bind_group_id
            ((pool.drop ostart).take (oend - ostart)) with
        | some (binder, trackers, calls) =>
            some ({ st with binder := binder }, trackers, calls)
        | none => none
      else none
  | RenderCommand.SetPipeline pipeline_id =>
      match setPipelineCore env context sample_count st.binder st.blend_color
          st.stencil_reference st.index st.vertex trackers pipeline_id with
      | some (binder, blend, stencil, index, vertex, trackers, calls) =>
          some ({ binder := binder, blend_color := blend, stencil_reference := stencil,
                  index := index, vertex := vertex }, trackers, calls)
      | none => none
  | RenderCommand.SetIndexBuffer buffer_id offset =>
      let buffer := env.buffers buffer_id
      let trackers := trackers.useExtendBuffer buffer_id BufferUsage_INDEX
      if usageContains buffer.usage BufferUsage_INDEX then
        let index := IndexState.update_limit
          { st.index with bound_buffer_view := some (buffer_id, offset, buffer.size) }
        some ({ st with index := index }, trackers,
          [BackendCall.bind_index_buffer buffer_id offset (map_index_format index.format)])
      else none
  | RenderCommand.SetVertexBuffer index buffer_id offset =>
      let buffer := env.buffers buffer_id
      let trackers := trackers.useExtendBuffer buffer_id BufferUsage_VERTEX
      if usageContains buffer.usage BufferUsage_VERTEX then
        -- `state.vertex.inputs[index as usize]` panics when out of bounds
        if index < st.vertex.inputs.length then
          let vbs := st.vertex.inputs.getD index VertexBufferState.EMPTY
          let inputs := st.vertex.inputs.set index
            { vbs with total_size := u64sub buffer.size offset }
          let vertex := VertexState.update_limits { st.vertex with inputs := inputs }
          some ({ st with vertex := vertex }, trackers,
            [BackendCall.bind_vertex_buffers index [(buffer_id, offset)]])
        else none
      else none
  | RenderCommand.SetBlendValue color =>
      some ({ st with blend_color := OptionalState.Set }, trackers,
        [BackendCall.set_blend_constants (map_color_f32 color)])
  | RenderCommand.SetStencilReference value =>
      some ({ st with stencil_reference := OptionalState.Set }, trackers,
        [BackendCall.set_stencil_reference value])
  | RenderCommand.SetViewport rect dstart dend =>
      some (st, trackers,
        [BackendCall.set_viewports 0
          [({ x := viewport_clamp rect.x 0, y := viewport_clamp rect.y 0,
              w := viewport_clamp rect.w I16_MAX, h := viewport_clamp rect.h I16_MAX },
            dstart, dend)]])
  | RenderCommand.SetScissor rect =>
      some (st, trackers,
        [BackendCall.set_scissors 0
          [{ x := i16_try_from_or (rect.x : Int) 0, y := i16_try_from_or (rect.y : Int) 0,
             w := i16_try_from_or (rect.w : Int) I16_MAX,
             h := i16_try_from_or (rect.h : Int) I16_MAX }]])
  | RenderCommand.Draw vertex_count instance_count first_vertex first_instance =>
      match st.is_ready with
      | Except.error _ => none
      | Except.ok _ =>
          if u32add first_vertex vertex_count ≤ st.vertex.vertex_limit then
            if u32add first_instance instance_count ≤ st.vertex.instance_limit then
              some (st, trackers,
                [BackendCall.draw first_vertex (u32add first_vertex vertex_count)
                  first_instance (u32add first_instance instance_count)])
            else none
          else none
  | RenderCommand.DrawIndexed index_count instance_count first_index base_vertex
      first_instance =>
      match st.is_ready with
      | Except.error _ => none
      | Except.ok _ =>
          if u32add first_index index_count ≤ st.index.limit then
            if u32add first_instance instance_count ≤ st.vertex.instance_limit then
              some (st, trackers,
                [BackendCall.draw_indexed first_index (u32add first_index index_count)
                  base_vertex first_instance (u32add first_instance instance_count)])
            else none
          else none
  | RenderCommand.DrawIndirect buffer_id offset =>
      match st.is_ready with
      | Except.error _ => none
      | Except.ok _ =>
          let buffer := env.buffers buffer_id
          let trackers := trackers.useExtendBuffer buffer_id BufferUsage_INDIRECT
          if usageContains buffer.usage BufferUsage_INDIRECT then
            some (st, trackers, [BackendCall.draw_indirect buffer_id offset 1 0])
          else none
  | RenderCommand.DrawIndexedIndirect buffer_id offset =>
      match st.is_ready with
      | Except.error _ => none
      | Except.ok _ =>
          let buffer := env.buffers buffer_id
          let trackers := trackers.useExtendBuffer buffer_id BufferUsage_INDIRECT
          if usageContains buffer.usage BufferUsage_INDIRECT then
            some (st, trackers, [BackendCall.draw_indexed_indirect buffer_id offset 1 0])
          else none

/-- The encoded command loop: interpret the commands in order, accumulating
the backend-call trace; a panic aborts the whole pass. -/
def runRenderCommands (env : Env) (context : RenderPassContext) (sample_count : Nat)
    (pool : List BufferAddress) :
    State → TrackerSet → List RenderCommand →
    Option (State × TrackerSet × List BackendCall)
  | st, trackers, [] => some (st, trackers, [])
  | st, trackers, c :: cs =>
      match runRenderCommand env context sample_count pool st trackers c with
      | none => none
      | some (st2, tr2, calls) =>
          match runRenderCommands env context sample_count pool st2 tr2 cs with
          | none => none
          | some (st3, tr3, more) => some (st3, tr3, calls ++ more)

end WgpuRender

namespace WgpuRender

/-! ## The incremental render pass object (lines 270-332) and its entry
points (lines 1160-1623) -/

structure RenderPass where
  cmb_id : Nat
  context : RenderPassContext
  binder : Binder
  trackers : TrackerSet
  blend_color_status : OptionalState
  stencil_reference_status : OptionalState
  index_state : IndexState
  vertex_state : VertexState
  sample_count : Nat
deriving DecidableEq

/-- `RenderPass::new` (lines 285-313): note both vertex limits start at 0. -/
def RenderPass.new (cmb_id : Nat) (context : RenderPassContext)
    (trackers : TrackerSet) (sample_count : Nat) (max_bind_groups : Nat) :
    RenderPass :=
  { cmb_id := cmb_id
    context := context
    binder := Binder.new max_bind_groups
    trackers := trackers
    blend_color_status := OptionalState.Unused
    stencil_reference_status := OptionalState.Unused
    index_state :=
      { bound_buffer_view := none, format := IndexFormat.Uint16, limit := 0 }
    vertex_state :=
      { inputs := List.replicate MAX_VERTEX_BUFFERS VertexBufferState.EMPTY
        vertex_limit := 0
        instance_limit := 0 }
    sample_count := sample_count }

/-- `RenderPass::is_ready` (lines 315-331), same checks in the same order as
`State::is_ready`. -/
def RenderPass.is_ready (p : RenderPass) : Except DrawError Unit :=
  let bind_mask := p.binder.invalid_mask
  if bind_mask ≠ 0 then
    Except.error (DrawError.IncompatibleBindGroup (trailing_zeros32 bind_mask))
  else if p.blend_color_status = OptionalState.Required then
    Except.error DrawError.MissingBlendColor
  else if p.stencil_reference_status = OptionalState.Required then
    Except.error DrawError.MissingStencilReference
  else Except.ok ()

/-- `render_pass_set_bind_group` (lines 1160-1215). -/
def render_pass_set_bind_group (env : Env) (p : RenderPass) (index : Nat)
    (bind_group_id : BindGroupId) (offsets : List Nat) :
    Option (RenderPass × List BackendCall) :=
  match setBindGroupCore env p.binder p.trackers index bind_group_id offsets with
  | some (binder, trackers, calls) =>
      some ({ p with binder := binder, trackers := trackers }, calls)
  | none => none

/-- `render_pass_set_index_buffer` (lines 1219-1251). -/
def render_pass_set_index_buffer (env : Env) (p : RenderPass)
    (buffer_id : BufferId) (offset : BufferAddress) :
    Option (RenderPass × List BackendCall) :=
  let buffer := env.buffers buffer_id
  let trackers := p.trackers.useExtendBuffer buffer_id BufferUsage_INDEX
  if usageContains buffer.usage BufferUsage_INDEX then
    let index_state := IndexState.update_limit
      { p.index_state with bound_buffer_view := some (buffer_id, offset, buffer.size) }
    some ({ p with index_state := index_state, trackers := trackers },
      [BackendCall.bind_index_buffer buffer_id offset (map_index_format index_state.format)])
  else none

/-- The loop body of `render_pass_set_vertex_buffers` (lines 1268-1281): the
mutable slice `inputs[start_slot ..]` zipped with the (buffer, offset) pairs;
iteration stops at the shorter sequence. -/
def setVertexBuffersLoop (env : Env) :
    List VertexBufferState → List (BufferId × BufferAddress) → TrackerSet →
    Option (List VertexBufferState × TrackerSet)
  | inputs, [], trackers => some (inputs, trackers)
  | [], _ :: _, trackers => some ([], trackers)
  | vbs :: inputs, (id, offset) :: rest, trackers =>
      let buffer := env.buffers id
      let trackers := trackers.useExtendBuffer id BufferUsage_VERTEX
      if usageContains buffer.usage BufferUsage_VERTEX then
        match setVertexBuffersLoop env inputs rest trackers with
        | some (inputs2, trackers2) =>
            some ({ vbs with total_size := u64sub buffer.size offset } :: inputs2, trackers2)
        | none => none
      else none

/-- `render_pass_set_vertex_buffers` (lines 1253-1292): update the slots from
`start_slot`, recompute the limits, and emit one `bind_vertex_buffers` with
every pair; the slice `inputs[start_slot ..]` panics when `start_slot`
exceeds the slot count. -/
def render_pass_set_vertex_buffers (env : Env) (p : RenderPass) (start_slot : Nat)
    (buffers : List BufferId) (offsets : List BufferAddress) :
    Option (RenderPass × List BackendCall) :=
  if buffers.length ≠ offsets.length then none
  else if start_slot ≤ p.vertex_state.inputs.length then
    match setVertexBuffersLoop env (p.vertex_state.inputs.drop start_slot)
        (buffers.zip offsets) p.trackers with
    | some (back, trackers) =>
        let inputs := p.vertex_state.inputs.take start_slot ++ back
        let vertex_state := VertexState.update_limits
          { p.vertex_state with inputs := inputs }
        some ({ p with vertex_state := vertex_state, trackers := trackers },
          [BackendCall.bind_vertex_buffers start_slot (buffers.zip offsets)])
    | none => none
  else none

/-- `render_pass_draw` (lines 1294-1323). -/
def render_pass_draw (env : Env) (p : RenderPass)
    (vertex_count instance_count first_vertex first_instance : Nat) :
    Option (RenderPass × List BackendCall) :=
  match p.is_ready with
  | Except.error _ => none
  | Except.ok _ =>
      if u32add first_vertex vertex_count ≤ p.vertex_state.vertex_limit then
        if u32add first_instance instance_count ≤ p.vertex_state.instance_limit then
          some (p, [BackendCall.draw first_vertex (u32add first_vertex vertex_count)
            first_instance (u32add first_instance instance_count)])
        else none
      else none

/-- `render_pass_draw_indirect` (lines 1325-1353). -/
def render_pass_draw_indirect (env : Env) (p : RenderPass)
    (indirect_buffer_id : BufferId) (indirect_offset : BufferAddress) :
    Option (RenderPass × List BackendCall) :=
  match p.is_ready with
  | Except.error _ => none
  | Except.ok _ =>
      let buffer := env.buffers indirect_buffer_id
      let trackers := p.trackers.useExtendBuffer indirect_buffer_id BufferUsage_INDIRECT
      if usageContains buffer.usage BufferUsage_INDIRECT then
        some ({ p with trackers := trackers },
          [BackendCall.draw_indirect indirect_buffer_id indirect_offset 1 0])
      else none

/-- `render_pass_draw_indexed` (lines 1355-1387). -/
def render_pass_draw_indexed (env : Env) (p : RenderPass)
    (index_count instance_count first_index : Nat) (base_vertex : Int)
    (first_instance : Nat) : Option (RenderPass × List BackendCall) :=
  match p.is_ready with
  | Except.error _ => none
  | Except.ok _ =>
      if u32add first_index index_count ≤ p.index_state.limit then
        if u32add first_instance instance_count ≤ p.vertex_state.instance_limit then
          some (p, [BackendCall.draw_indexed first_index (u32add first_index index_count)
            base_vertex first_instance (u32add first_instance instance_count)])
        else none
      else none

/-- `render_pass_draw_indexed_indirect` (lines 1389-1418). -/
def render_pass_draw_indexed_indirect (env : Env) (p : RenderPass)
    (indirect_buffer_id : BufferId) (indirect_offset : BufferAddress) :
    Option (RenderPass × List BackendCall) :=
  match p.is_ready with
  | Except.error _ => none
  | Except.ok _ =>
      let buffer := env.buffers indirect_buffer_id
      let trackers := p.trackers.useExtendBuffer indirect_buffer_id BufferUsage_INDIRECT
      if usageContains buffer.usage BufferUsage_INDIRECT then
        some ({ p with trackers := trackers },
          [BackendCall.draw_indexed_indirect indirect_buffer_id indirect_offset 1 0])
      else none

/-- `render_pass_set_pipeline` (lines 1420-1526). -/
def render_pass_set_pipeline (env : Env) (p : RenderPass)
    (pipeline_id : RenderPipelineId) : Option (RenderPass × List BackendCall) :=
  match setPipelineCore env p.context p.sample_count p.binder p.blend_color_status
      p.stencil_reference_status p.index_state p.vertex_state p.trackers pipeline_id with
  | some (binder, blend, stencil, index_state, vertex_state, trackers, calls) =>
      let p2 : RenderPass :=
        { p with
          binder := binder, blend_color_status := blend,
          stencil_reference_status := stencil, index_state := index_state,
          vertex_state := vertex_state, trackers := trackers }
      some (p2, calls)
  | none => none

/-- `render_pass_set_blend_color` (lines 1528-1543). -/
def render_pass_set_blend_color (env : Env) (p : RenderPass) (color : Color) :
    Option (RenderPass × List BackendCall) :=
  some ({ p with blend_color_status := OptionalState.Set },
    [BackendCall.set_blend_constants (map_color_f32 color)])

/-- `render_pass_set_stencil_reference` (lines 1545-1560). -/
def render_pass_set_stencil_reference (env : Env) (p : RenderPass) (value : Nat) :
    Option (RenderPass × List BackendCall) :=
  some ({ p with stencil_reference_status := OptionalState.Set },
    [BackendCall.set_stencil_reference value])

/-- `render_pass_set_viewport` (lines 1562-1594). -/
def render_pass_set_viewport (env : Env) (p : RenderPass)
    (x y w h : Rat) (min_depth max_depth : Rat) :
    Option (RenderPass × List BackendCall) :=
  some (p, [BackendCall.set_viewports 0
    [({ x := viewport_clamp x 0, y := viewport_clamp y 0,
        w := viewport_clamp w I16_MAX, h := viewport_clamp h I16_MAX },
      min_depth, max_depth)]])

/-- `render_pass_set_scissor_rect` (lines 1596-1623). -/
def render_pass_set_scissor_rect (env : Env) (p : RenderPass) (x y w h : Nat) :
    Option (RenderPass × List BackendCall) :=
  some (p, [BackendCall.set_scissors 0
    [{ x := i16_try_from_or (x : Int) 0, y := i16_try_from_or (y : Int) 0,
       w := i16_try_from_or (w : Int) I16_MAX, h := i16_try_from_or (h : Int) I16_MAX }]])

/-- Dispatch a logical `RenderCommand` to the equivalent incremental entry
point (`SetBindGroup` resolves its offset-pool slice first, as the encoded
form does; `SetVertexBuffer` becomes a one-element `set_vertex_buffers`). -/
def applyIncremental (env : Env) (pool : List BufferAddress) (p : RenderPass) :
    RenderCommand → Option (RenderPass × List BackendCall)
  | RenderCommand.SetBindGroup index bind_group_id ostart oend =>
      if ostart ≤ oend ∧ oend ≤ pool.length then
        render_pass_set_bind_group env p index bind_group_id
          ((pool.drop ostart).take (oend - ostart))
      else none
  | RenderCommand.SetPipeline pipeline_id => render_pass_set_pipeline env p pipeline_id
  | RenderCommand.SetIndexBuffer buffer_id offset =>
      render_pass_set_index_buffer env p buffer_id offset
  | RenderCommand.SetVertexBuffer index buffer_id offset =>
      render_pass_set_vertex_buffers env p index [buffer_id] [offset]
  | RenderCommand.SetBlendValue color => render_pass_set_blend_color env p color
  | RenderCommand.SetStencilReference value =>
      render_pass_set_stencil_reference env p value
  | RenderCommand.SetViewport rect dstart dend =>
      render_pass_set_viewport env p rect.x rect.y rect.w rect.h dstart dend
  | RenderCommand.SetScissor rect =>
      render_pass_set_scissor_rect env p rect.x rect.y rect.w rect.h
  | RenderCommand.Draw vertex_count instance_count first_vertex first_instance =>
      render_pass_draw env p vertex_count instance_count first_vertex first_instance
  | RenderCommand.DrawIndexed index_count instance_count first_index base_vertex
      first_instance =>
      render_pass_draw_indexed env p index_count instance_count first_index
        base_vertex first_instance
  | RenderCommand.DrawIndirect buffer_id offset =>
      render_pass_draw_indirect env p buffer_id offset
  | RenderCommand.DrawIndexedIndirect buffer_id offset =>
      render_pass_draw_indexed_indirect env p buffer_id offset

/-- Run a logical command sequence through the incremental entry points,
accumulating the trace. -/
def runIncremental (env : Env) (pool : List BufferAddress) :
    RenderPass → List RenderCommand → Option (RenderPass × List BackendCall)
  | p, [] => some (p, [])
  | p, c :: cs =>
      match applyIncremental env pool p c with
      | none => none
      | some (p2, calls) =>
          match runIncremental env pool p2 cs with
          | none => none
          | some (p3, more) => some (p3, calls ++ more)

end WgpuRender

namespace WgpuRender

/-! ## The render-pass begin phase of `command_encoder_run_render_pass`
(lines 401-844) -/

structure CommandBuffer where
  trackers : TrackerSet
  used_swap_chain : Option TextureViewId
  features_max_bind_groups : Nat
deriving DecidableEq

/-- Device-held object caches (§4.2); only key membership is observable. -/
structure DeviceCaches where
  render_passes : List RenderPassKey
  framebuffers : List FramebufferKey
deriving DecidableEq

/-- Mutable state threaded through the attachment walk: the command buffer's
trackers, the common extent, the pending swap-chain view, and the
`output_attachments` triples. -/
structure BeginSt where
  cmbTrackers : TrackerSet
  extent : Option (Nat × Nat)
  used_swap_chain_image : Option TextureViewId
  output_attachments : List (TextureId × Nat × Option Nat)
deriving DecidableEq

/-- The repeated extent check: `assert_eq!(ex, view.extent)` when already
set, else record the extent. -/
def checkExtent (extent : Option (Nat × Nat)) (e : Nat × Nat) :
    Option (Option (Nat × Nat)) :=
  match extent with
  | some ex => if ex = e then some (some ex) else none
  | none => some (some e)

/-- Depth-stencil attachment processing (lines 437-482): `use_extend` the
view, check the extent, reject swap-chain views, query the prior usage, and
build the backend attachment with the derived initial layout. -/
def processDepthStencil (env : Env) (bs : BeginSt) (datt : DepthStencilAttachment) :
    Option (BeginSt × HalAttachment) :=
  let view := env.views datt.attachment
  let tr : TrackerSet :=
    { bs.cmbTrackers with views := idUseExtend bs.cmbTrackers.views datt.attachment }
  match checkExtent bs.extent view.extent with
  | none => none
  | some extent =>
    match view.inner with
    | TextureViewInner.SwapChain => none
    | TextureViewInner.Native source_id =>
        let consistent_usage := textureQuery tr.textures source_id view.range
        let bs2 : BeginSt :=
          { cmbTrackers := tr
            extent := extent
            used_swap_chain_image := bs.used_swap_chain_image
            output_attachments :=
              bs.output_attachments ++ [(source_id, view.range, consistent_usage)] }
        let old_layout := match consistent_usage with
          | some usage => map_texture_state_layout usage Aspects_DEPTH_STENCIL
          | none => ImageLayout.DepthStencilAttachmentOptimal
        some (bs2,
          { format := map_texture_format view.format
            samples := view.samples
            ops := map_load_store_ops datt.depth_load_op datt.depth_store_op
            stencil_ops := map_load_store_ops datt.stencil_load_op datt.stencil_store_op
            layouts := (old_layout, ImageLayout.DepthStencilAttachmentOptimal) })

/-- Color attachment processing (lines 487-546): extent and sample checks,
first-use registration, and layout selection; a swap-chain view must agree
with the command buffer's registered swap-chain view, or claim the single
pending slot; its final layout is `Present` and its initial layout is
`Undefined` exactly on first use. -/
def processColorAttachment (env : Env) (used_swap_chain : Option TextureViewId)
    (sample_count : Nat) (bs : BeginSt) (att : ColorAttachment) :
    Option (BeginSt × HalAttachment) :=
  let view := env.views att.attachment
  match checkExtent bs.extent view.extent with
  | none => none
  | some extent =>
    if view.samples = sample_count then
      let fu := idInit bs.cmbTrackers.views att.attachment
      let first_use := fu.1
      let bs : BeginSt :=
        { bs with
          cmbTrackers := { bs.cmbTrackers with views := fu.2 }, extent := extent }
      let mk : (ImageLayout × ImageLayout) → HalAttachment := fun layouts =>
        { format := map_texture_format view.format
          samples := view.samples
          ops := map_load_store_ops att.load_op att.store_op
          stencil_ops := ATTACHMENT_OPS_DONT_CARE
          layouts := layouts }
      match view.inner with
      | TextureViewInner.Native source_id =>
          let consistent_usage := textureQuery bs.cmbTrackers.textures source_id view.range
          let bs : BeginSt :=
            { bs with
              output_attachments :=
                bs.output_attachments ++ [(source_id, view.range, consistent_usage)] }
          let old_layout := match consistent_usage with
            | some usage => map_texture_state_layout usage Aspects_COLOR
            | none => ImageLayout.ColorAttachmentOptimal
          some (bs, mk (old_layout, ImageLayout.ColorAttachmentOptimal))
      | TextureViewInner.SwapChain =>
          let layouts :=
            (if first_use then ImageLayout.Undefined else ImageLayout.Present,
             ImageLayout.Present)
          match used_swap_chain with
          | some view_id =>
              if view_id = att.attachment then some (bs, mk layouts) else none
          | none =>
              if bs.used_swap_chain_image = none then
                some ({ bs with used_swap_chain_image := some att.attachment }, mk layouts)
              else none
    else none

def processColorAttachments (env : Env) (used_swap_chain : Option TextureViewId)
    (sample_count : Nat) :
    BeginSt → List ColorAttachment → Option (BeginSt × List HalAttachment)
  | bs, [] => some (bs, [])
  | bs, att :: rest =>
      match processColorAttachment env used_swap_chain sample_count bs att with
      | none => none
      | some (bs2, ha) =>
          match processColorAttachments env used_swap_chain sample_count bs2 rest with
          | none => none
          | some (bs3, has) => some (bs3, ha :: has)

/-- Resolve-target processing (lines 548-609): the extent must already match,
samples must be 1, ops are `(DontCare, Store)`; swap-chain handling as for
colors. -/
def processResolveAttachment (env : Env) (used_swap_chain : Option TextureViewId)
    (bs : BeginSt) (resolve_target : TextureViewId) :
    Option (BeginSt × HalAttachment) :=
  let view := env.views resolve_target
  if bs.extent = some view.extent then
    if view.samples = 1 then
      let fu := idInit bs.cmbTrackers.views resolve_target
      let first_use := fu.1
      let bs : BeginSt := { bs with cmbTrackers := { bs.cmbTrackers with views := fu.2 } }
      let mk : (ImageLayout × ImageLayout) → HalAttachment := fun layouts =>
        { format := map_texture_format view.format
          samples := view.samples
          ops := (AttachmentLoadOp.DontCare, AttachmentStoreOp.Store)
          stencil_ops := ATTACHMENT_OPS_DONT_CARE
          layouts := layouts }
      match view.inner with
      | TextureViewInner.Native source_id =>
          let consistent_usage := textureQuery bs.cmbTrackers.textures source_id view.range
          let bs : BeginSt :=
            { bs with
              output_attachments :=
                bs.output_attachments ++ [(source_id, view.range, consistent_usage)] }
          let old_layout := match consistent_usage with
            | some usage => map_texture_state_layout usage Aspects_COLOR
            | none => ImageLayout.ColorAttachmentOptimal
          some (bs, mk (old_layout, ImageLayout.ColorAttachmentOptimal))
      | TextureViewInner.SwapChain =>
          let layouts :=
            (if first_use then ImageLayout.Undefined else ImageLayout.Present,
             ImageLayout.Present)
          match used_swap_chain with
          | some view_id =>
              if view_id = resolve_target then some (bs, mk layouts) else none
          | none =>
              if bs.used_swap_chain_image = none then
                some ({ bs with used_swap_chain_image := some resolve_target }, mk layouts)
              else none
    else none
  else none

def processResolveAttachments (env : Env) (used_swap_chain : Option TextureViewId) :
    BeginSt → List TextureViewId → Option (BeginSt × List HalAttachment)
  | bs, [] => some (bs, [])
  | bs, r :: rest =>
      match processResolveAttachment env used_swap_chain bs r with
      | none => none
      | some (bs2, ha) =>
          match processResolveAttachments env used_swap_chain bs2 rest with
          | none => none
          | some (bs3, has) => some (bs3, ha :: has)

/-- The `output_attachments` loop (lines 618-640): assert the backing texture
has `OUTPUT_ATTACHMENT` usage, record the prior ("first") usage on the
pass-local tracker with `change_replace`, and — when a prior usage exists — a
second `change_replace` to `OUTPUT_ATTACHMENT` standing for the transition
the render pass itself performs. -/
def recordOutputAttachments (env : Env) :
    TrackerSet → List (TextureId × Nat × Option Nat) → Option TrackerSet
  | trackers, [] => some trackers
  | trackers, (source_id, range, consistent_usage) :: rest =>
      let texture := env.textures source_id
      if usageContains texture.usage TextureUsage_OUTPUT_ATTACHMENT then
        let usage := consistent_usage.getD TextureUsage_OUTPUT_ATTACHMENT
        let tr : TrackerSet :=
          { trackers with
            textures := textureChangeReplace trackers.textures source_id range usage }
        let tr : TrackerSet :=
          if consistent_usage.isSome then
            { tr with
              textures := textureChangeReplace tr.textures source_id range
                TextureUsage_OUTPUT_ATTACHMENT }
          else tr
        recordOutputAttachments env tr rest
      else none

/-- The assertions of the render-pass-cache miss branch (lines 645-698): when
any color attachment has a resolve target, every color with a resolve target
must be multisampled. -/
def resolveSampleChecks (env : Env) (pass : StandaloneRenderPass) : Bool :=
  pass.color_attachments.all (fun att =>
    att.resolve_target.isNone ∨ (env.views att.attachment).samples > 1)

/-- Render-pass cache lookup (lines 642-699): hit returns the cache
unchanged; miss runs the subpass-construction assertions and inserts the key. -/
def lookupRenderPass (env : Env) (caches : DeviceCaches) (pass : StandaloneRenderPass)
    (rp_key : RenderPassKey) : Option DeviceCaches :=
  if rp_key ∈ caches.render_passes then some caches
  else if resolveSampleChecks env pass then
    some { caches with render_passes := caches.render_passes ++ [rp_key] }
  else none

/-- Framebuffer selection (lines 712-756): a pending swap-chain image asserts
the command buffer holds none yet, bypasses the cache and is stored on the
command buffer; otherwise the device cache is used (insert on miss). -/
def lookupFramebuffer (cmb_swap : Option TextureViewId) (caches : DeviceCaches)
    (used_swap_chain_image : Option TextureViewId) (fb_key : FramebufferKey) :
    Option (Option TextureViewId × DeviceCaches) :=
  match used_swap_chain_image with
  | some view_id => if cmb_swap = none then some (some view_id, caches) else none
  | none =>
      if fb_key ∈ caches.framebuffers then some (cmb_swap, caches)
      else
        some (cmb_swap, { caches with framebuffers := caches.framebuffers ++ [fb_key] })

/-- Clear-value assembly (lines 768-811): one color clear per attachment with
`LoadOp::Clear`, in the union variant chosen by the format's channel type,
then a depth-stencil clear when either aspect clears. -/
def clearValuesOf (pass : StandaloneRenderPass) (rp_key : RenderPassKey) :
    List ClearValue :=
  ((pass.color_attachments.zip rp_key.colors).filterMap (fun ak =>
    match ak.1.load_op with
    | LoadOp.Load => none
    | LoadOp.Clear =>
        some (match ak.2.format.channel with
          | ChannelType.Sint => ClearValue.color_i32 (map_color_i32 ak.1.clear_color)
          | ChannelType.Uint => ClearValue.color_u32 (map_color_u32 ak.1.clear_color)
          | _ => ClearValue.color_f32 (map_color_f32 ak.1.clear_color))))
  ++ (match pass.depth_stencil_attachment with
      | some datt =>
          match datt.depth_load_op, datt.stencil_load_op with
          | LoadOp.Load, LoadOp.Load => []
          | _, _ => [ClearValue.depth_stencil datt.clear_depth datt.clear_stencil]
      | none => [])

structure BeginCore where
  cmb : CommandBuffer
  caches : DeviceCaches
  context : RenderPassContext
  sample_count : Nat
  trackers : TrackerSet
  extent : Nat × Nat
  rp_key : RenderPassKey
  fb_key : FramebufferKey
deriving DecidableEq

/-- The begin phase of `command_encoder_run_render_pass` (lines 401-844,
emissions split into `beginCalls` below): sample-count check, attachment walk
(depth-stencil, colors, resolves), pass-local tracker recording and cache
lookups. -/
def beginRenderPassCore (env : Env) (caches : DeviceCaches) (cmb : CommandBuffer)
    (pass : StandaloneRenderPass) : Option BeginCore :=
  let sample_count := match pass.color_attachments.get? 0 with
    | some att => (env.views att.attachment).samples
    | none => 1
  if sample_count &&& env.samples_count_limit ≠ 0 then
    let bs0 : BeginSt :=
      { cmbTrackers := cmb.trackers
        extent := none
        used_swap_chain_image := none
        output_attachments := [] }
    let dsStep : Option (BeginSt × Option HalAttachment) :=
      match pass.depth_stencil_attachment with
      | some datt =>
          match processDepthStencil env bs0 datt with
          | none => none
          | some (bs, ha) => some (bs, some ha)
      | none => some (bs0, none)
    match dsStep with
    | none => none
    | some (bs1, depth_stencil) =>
      match processColorAttachments env cmb.used_swap_chain sample_count bs1
          pass.color_attachments with
      | none => none
      | some (bs2, colors) =>
        match processResolveAttachments env cmb.used_swap_chain bs2
            (pass.color_attachments.filterMap (fun att => att.resolve_target)) with
        | none => none
        | some (bs3, resolves) =>
          let rp_key : RenderPassKey :=
            { colors := colors, resolves := resolves, depth_stencil := depth_stencil }
          match recordOutputAttachments env TrackerSet.empty bs3.output_attachments with
          | none => none
          | some trackers =>
            match lookupRenderPass env caches pass rp_key with
            | none => none
            | some caches =>
              let fb_key : FramebufferKey :=
                { colors := pass.color_attachments.map (fun att => att.attachment)
                  resolves :=
                    pass.color_attachments.filterMap (fun att => att.resolve_target)
                  depth_stencil :=
                    pass.depth_stencil_attachment.map (fun datt => datt.attachment) }
              match lookupFramebuffer cmb.used_swap_chain caches
                  bs3.used_swap_chain_image fb_key with
              | none => none
              | some (used_swap_chain, caches) =>
                match bs3.extent with
                | none => none
                | some ex =>
                  let context : RenderPassContext :=
                    { colors := pass.color_attachments.map
                        (fun att => (env.views att.attachment).format)
                      resolves :=
                        (pass.color_attachments.filterMap
                          (fun att => att.resolve_target)).map
                          (fun r => (env.views r).format)
                      depth_stencil := pass.depth_stencil_attachment.map
                        (fun datt => (env.views datt.attachment).format) }
                  some
                    { cmb :=
                        { trackers := bs3.cmbTrackers
                          used_swap_chain := used_swap_chain
                          features_max_bind_groups := cmb.features_max_bind_groups }
                      caches := caches
                      context := context
                      sample_count := sample_count
                      trackers := trackers
                      extent := ex
                      rp_key := rp_key
                      fb_key := fb_key }
  else none

/-- The default rect covering the full attachment extent (lines 758-766):
`x = y = 0`, width and height cast `as i16`. -/
def beginRect (bc : BeginCore) : HalRect :=
  { x := 0, y := 0, w := i16_wrap_of_u32 bc.extent.1, h := i16_wrap_of_u32 bc.extent.2 }

/-- The backend calls emitted by the begin phase (lines 813-829):
`begin_render_pass`, then one `set_scissors` and one `set_viewports` at
binding 0 with the full-extent rect and depth range `0.0 .. 1.0`. -/
def beginCalls (pass : StandaloneRenderPass) (bc : BeginCore) : List BackendCall :=
  [BackendCall.begin_render_pass bc.rp_key bc.fb_key (beginRect bc)
    (clearValuesOf pass bc.rp_key),
   BackendCall.set_scissors 0 [beginRect bc],
   BackendCall.set_viewports 0 [(beginRect bc, 0, 1)]]

/-- `command_encoder_run_render_pass` (lines 379-1158): begin phase, then the
command loop. The source function ends right after the loop: it emits no
`end_render_pass` and the pass-local `trackers` are dropped without being
merged into `cmb.trackers`. -/
def command_encoder_run_render_pass (env : Env) (caches : DeviceCaches)
    (cmb : CommandBuffer) (pass : StandaloneRenderPass) :
    Option (CommandBuffer × DeviceCaches × List BackendCall) :=
  match beginRenderPassCore env caches cmb pass with
  | none => none
  | some br =>
      let state : State :=
        { binder := Binder.new cmb.features_max_bind_groups
          blend_color := OptionalState.Unused
          stencil_reference := OptionalState.Unused
          index := { bound_buffer_view := none, format := IndexFormat.Uint16, limit := 0 }
          vertex :=
            { inputs := List.replicate MAX_VERTEX_BUFFERS VertexBufferState.EMPTY
              vertex_limit := 0
              instance_limit := 0 } }
      match runRenderCommands env br.context br.sample_count pass.offsets state
          br.trackers pass.commands with
      | none => none
      | some (_st, _trackers, cmd_calls) =>
          some (br.cmb, br.caches, beginCalls pass br ++ cmd_calls)

end WgpuRender

namespace WgpuRender

/-! ## Concrete fixtures for witnesses and counterexamples -/

def testFormat : TextureFormat := ⟨0, ChannelType.Unorm⟩

def testCtx : RenderPassContext :=
  { colors := [testFormat], resolves := [], depth_stencil := none }

def testSwapView : TextureView :=
  { inner := TextureViewInner.SwapChain, format := testFormat, samples := 1
    extent := (4, 4), range := 0 }

def testNativeView : TextureView :=
  { inner := TextureViewInner.Native 0, format := testFormat, samples := 1
    extent := (4, 4), range := 0 }

def testPipeline : RenderPipeline :=
  { pass_context := testCtx, sample_count := 1, flags_blend_color := false
    flags_stencil_reference := false, index_format := IndexFormat.Uint32
    vertex_strides := [], layout_id := 0 }

def testEnv : Env :=
  { buffers := fun _ => { size := 8, usage := BufferUsage_INDEX ||| BufferUsage_VERTEX }
    bind_groups := fun _ => { layout_id := 0, dynamic_count := 0, used := TrackerSet.empty }
    pipelines := fun _ => testPipeline
    pipeline_layouts := fun _ => { bind_group_layout_ids := [] }
    views := fun i => if i = 0 then testSwapView else testNativeView
    textures := fun _ => { usage := TextureUsage_OUTPUT_ATTACHMENT }
    samples_count_limit := 1 }

/-- The `State` value built at line 846 (fresh pass state). -/
def testState : State :=
  { binder := Binder.new 4
    blend_color := OptionalState.Unused
    stencil_reference := OptionalState.Unused
    index := { bound_buffer_view := none, format := IndexFormat.Uint16, limit := 0 }
    vertex :=
      { inputs := List.replicate MAX_VERTEX_BUFFERS VertexBufferState.EMPTY
        vertex_limit := 0
        instance_limit := 0 } }

def testCmb : CommandBuffer :=
  { trackers := TrackerSet.empty, used_swap_chain := none, features_max_bind_groups := 4 }

def testCaches : DeviceCaches := ⟨[], []⟩

def testColor (v : TextureViewId) : ColorAttachment :=
  { attachment := v, resolve_target := none, load_op := LoadOp.Clear
    store_op := StoreOp.Store, clear_color := ⟨0, 0, 0, 1⟩ }

/-- A state whose binder has slot 0 expected but unbound. -/
def testInvalidState : State :=
  { testState with binder := ⟨some 0, [⟨some 1, none⟩]⟩ }

instance : DecidableEq (Except DrawError Unit) := fun a b =>
  match a, b with
  | Except.ok x, Except.ok y =>
      if h : x = y then isTrue (by rw [h]) else isFalse (by intro he; cases he; exact h rfl)
  | Except.error x, Except.error y =>
      if h : x = y then isTrue (by rw [h]) else isFalse (by intro he; cases he; exact h rfl)
  | Except.ok _, Except.error _ => isFalse (by intro he; cases he)
  | Except.error _, Except.ok _ => isFalse (by intro he; cases he)

/-! ## C8 -/

/-- C8: `is_ready()` (both `State::is_ready` and `RenderPass::is_ready`)
succeeds iff the binder's invalid mask is zero, blend color is not
`Required` and stencil reference is not `Required`; on failure it reports
`IncompatibleBindGroup` at the lowest set bit of the mask (checked first),
then `MissingBlendColor`, then `MissingStencilReference`. -/
theorem c8_is_ready_characterization (s : State) (p : RenderPass) :
    (s.is_ready = Except.ok () ↔
      s.binder.invalid_mask = 0 ∧ s.blend_color ≠ OptionalState.Required ∧
        s.stencil_reference ≠ OptionalState.Required) ∧
    (s.binder.invalid_mask ≠ 0 →
      s.is_ready = Except.error
        (DrawError.IncompatibleBindGroup (trailing_zeros32 s.binder.invalid_mask))) ∧
    (s.binder.invalid_mask = 0 → s.blend_color = OptionalState.Required →
      s.is_ready = Except.error DrawError.MissingBlendColor) ∧
    (s.binder.invalid_mask = 0 → s.blend_color ≠ OptionalState.Required →
      s.stencil_reference = OptionalState.Required →
      s.is_ready = Except.error DrawError.MissingStencilReference) ∧
    (p.is_ready = Except.ok () ↔
      p.binder.invalid_mask = 0 ∧ p.blend_color_status ≠ OptionalState.Required ∧
        p.stencil_reference_status ≠ OptionalState.Required) := by
  simp only [State.is_ready, RenderPass.is_ready]
  refine ⟨?_, ?_, ?_, ?_, ?_⟩ <;> split_ifs <;> simp_all

/-- Witness for C8 at concrete states: an unsatisfied expected slot reports
`IncompatibleBindGroup 0`, and the fresh state is ready. -/
theorem c8_is_ready_characterization_witness :
    testInvalidState.is_ready = Except.error (DrawError.IncompatibleBindGroup 0) ∧
    testState.is_ready = Except.ok () := by
  constructor
  · have h := (c8_is_ready_characterization testInvalidState
      (RenderPass.new 0 testCtx TrackerSet.empty 1 4)).2.1 (by decide)
    rw [h]
    decide
  · exact ((c8_is_ready_characterization testState
      (RenderPass.new 0 testCtx TrackerSet.empty 1 4)).1).2 (by decide)

/-! ## C6 -/

/-- C6: a `Draw` (encoded or incremental) reaches the backend iff
`is_ready()` succeeds and the wrapped u32 sums `first_vertex + vertex_count`
and `first_instance + instance_count` are within the vertex and instance
limits; any violation fails the pass with no draw call emitted. -/
theorem c6_draw_emitted_iff (env : Env) (context : RenderPassContext)
    (sample_count : Nat) (pool : List BufferAddress) (st : State) (tr : TrackerSet)
    (p : RenderPass) (vertex_count instance_count first_vertex first_instance : Nat) :
    (runRenderCommand env context sample_count pool st tr
        (RenderCommand.Draw vertex_count instance_count first_vertex first_instance) =
      if st.is_ready = Except.ok () ∧
          u32add first_vertex vertex_count ≤ st.vertex.vertex_limit ∧
          u32add first_instance instance_count ≤ st.vertex.instance_limit then
        some (st, tr,
          [BackendCall.draw first_vertex (u32add first_vertex vertex_count)
            first_instance (u32add first_instance instance_count)])
      else none) ∧
    (render_pass_draw env p vertex_count instance_count first_vertex first_instance =
      if p.is_ready = Except.ok () ∧
          u32add first_vertex vertex_count ≤ p.vertex_state.vertex_limit ∧
          u32add first_instance instance_count ≤ p.vertex_state.instance_limit then
        some (p,
          [BackendCall.draw first_vertex (u32add first_vertex vertex_count)
            first_instance (u32add first_instance instance_count)])
      else none) := by
  constructor
  · cases h : st.is_ready with
    | error e => simp [runRenderCommand, h]
    | ok u =>
        cases u
        simp only [runRenderCommand, h]
        split_ifs <;> simp_all
  · cases h : p.is_ready with
    | error e => simp [render_pass_draw, h]
    | ok u =>
        cases u
        simp only [render_pass_draw, h]
        split_ifs <;> simp_all

/-! ## C3 -/

/-- C3 counterexample: a `SetScissor` with `x = 40000 > i16::MAX` emits a
scissor with `x = 0`, not `i16::MAX = 32767` as the claim states. -/
theorem c3_counterexample :
    runRenderCommand testEnv testCtx 1 [] testState TrackerSet.empty
        (RenderCommand.SetScissor ⟨40000, 0, 10, 10⟩) =
      some (testState, TrackerSet.empty, [BackendCall.set_scissors 0 [⟨0, 0, 10, 10⟩]]) ∧
    (0 : Int) ≠ 32767 := by
  constructor
  · decide
  · decide

/-- C3 amended: each coordinate is converted by `i16::try_from` with a
per-coordinate fallback — 0 for `x` and `y`, `i16::MAX` for `w` and `h` — on
ANY out-of-range value (so a scissor `x` or `y` above `i16::MAX` maps to 0,
not `i16::MAX`); viewport floats are first rounded to nearest (half away
from zero) and cast to i64 with saturation. -/
theorem c3_amended_i16_conversion (env : Env) (context : RenderPassContext)
    (sample_count : Nat) (pool : List BufferAddress) (st : State) (tr : TrackerSet)
    (p : RenderPass) (r : Rect Nat) (rv : Rect Rat) (d0 d1 : Rat) :
    (runRenderCommand env context sample_count pool st tr (RenderCommand.SetScissor r) =
      some (st, tr, [BackendCall.set_scissors 0
        [{ x := if (r.x : Int) ≤ 32767 then (r.x : Int) else 0
           y := if (r.y : Int) ≤ 32767 then (r.y : Int) else 0
           w := if (r.w : Int) ≤ 32767 then (r.w : Int) else 32767
           h := if (r.h : Int) ≤ 32767 then (r.h : Int) else 32767 }]])) ∧
    (render_pass_set_scissor_rect env p r.x r.y r.w r.h =
      some (p, [BackendCall.set_scissors 0
        [{ x := if (r.x : Int) ≤ 32767 then (r.x : Int) else 0
           y := if (r.y : Int) ≤ 32767 then (r.y : Int) else 0
           w := if (r.w : Int) ≤ 32767 then (r.w : Int) else 32767
           h := if (r.h : Int) ≤ 32767 then (r.h : Int) else 32767 }]])) ∧
    (runRenderCommand env context sample_count pool st tr
        (RenderCommand.SetViewport rv d0 d1) =
      some (st, tr, [BackendCall.set_viewports 0
        [({ x := if -32768 ≤ i64_sat (f32_round rv.x) ∧ i64_sat (f32_round rv.x) ≤ 32767
                 then i64_sat (f32_round rv.x) else 0
            y := if -32768 ≤ i64_sat (f32_round rv.y) ∧ i64_sat (f32_round rv.y) ≤ 32767
                 then i64_sat (f32_round rv.y) else 0
            w := if -32768 ≤ i64_sat (f32_round rv.w) ∧ i64_sat (f32_round rv.w) ≤ 32767
                 then i64_sat (f32_round rv.w) else 32767
            h := if -32768 ≤ i64_sat (f32_round rv.h) ∧ i64_sat (f32_round rv.h) ≤ 32767
                 then i64_sat (f32_round rv.h) else 32767 }, d0, d1)]])) := by
  have hnn : ∀ n : Nat, (-32768 : Int) ≤ (n : Int) := fun n =>
    le_trans (by norm_num) (Int.natCast_nonneg n)
  refine ⟨?_, ?_, ?_⟩
  · simp [runRenderCommand, i16_try_from_or, I16_MAX, I16_MIN, hnn]
  · simp [render_pass_set_scissor_rect, i16_try_from_or, I16_MAX, I16_MIN, hnn]
  · simp [runRenderCommand, viewport_clamp, i16_try_from_or, I16_MAX, I16_MIN]

end WgpuRender

namespace WgpuRender

/-! ## C5 -/

/-- The spec's limit formula (§3): the minimum of `total_size / stride`
(as u32) over the slots with `stride > 0` of the given step rate, with
`u32::MAX` as the "no constraint" sentinel. -/
def specLimit (rate : InputStepMode) (inputs : List VertexBufferState) : Nat :=
  ((inputs.filter (fun vbs => decide (vbs.stride ≠ 0 ∧ vbs.rate = rate))).map
    (fun vbs => u32trunc (vbs.total_size / vbs.stride))).foldr min u32MAX

/-- The spec invariant on a VertexState's cached limits. -/
def vertexInvariant (vs : VertexState) : Prop :=
  vs.vertex_limit = specLimit InputStepMode.Vertex vs.inputs ∧
  vs.instance_limit = specLimit InputStepMode.Instance vs.inputs

theorem foldr_min_pull (l : List Nat) (a c : Nat) :
    min a (l.foldr min c) = l.foldr min (min a c) := by
  induction l generalizing c with
  | nil => rfl
  | cons x xs ih =>
      simp only [List.foldr_cons]
      rw [min_left_comm, ih]

theorem update_limits_fold (inputs : List VertexBufferState) (a b : Nat) :
    inputs.foldl
      (fun (acc : Nat × Nat) vbs =>
        if vbs.stride = 0 then acc
        else
          let limit := u32trunc (vbs.total_size / vbs.stride)
          match vbs.rate with
          | InputStepMode.Vertex => (min acc.1 limit, acc.2)
          | InputStepMode.Instance => (acc.1, min acc.2 limit)) (a, b) =
    (((inputs.filter (fun vbs =>
        decide (vbs.stride ≠ 0 ∧ vbs.rate = InputStepMode.Vertex))).map
        (fun vbs => u32trunc (vbs.total_size / vbs.stride))).foldr min a,
     ((inputs.filter (fun vbs =>
        decide (vbs.stride ≠ 0 ∧ vbs.rate = InputStepMode.Instance))).map
        (fun vbs => u32trunc (vbs.total_size / vbs.stride))).foldr min b) := by
  induction inputs generalizing a b with
  | nil => rfl
  | cons vbs rest ih =>
      by_cases hs : vbs.stride = 0
      · simp [List.foldl_cons, List.filter_cons, hs, ih]
      · cases hr : vbs.rate <;>
          simp only [List.foldl_cons, if_neg hs, hr, ih] <;>
          simp [hs, hr, List.filter_cons, foldr_min_pull, min_comm]

/-- `update_limits` establishes the spec invariant. -/
theorem update_limits_establishes (vs : VertexState) :
    vertexInvariant vs.update_limits := by
  unfold vertexInvariant VertexState.update_limits specLimit
  rw [update_limits_fold]
  exact ⟨rfl, rfl⟩

/-- Whatever `setPipelineCore` returns, its vertex state is an
`update_limits` image. -/
theorem setPipelineCore_vertex (env : Env) (context : RenderPassContext)
    (sample_count : Nat) (binder : Binder) (blend stencil : OptionalState)
    (index : IndexState) (vertex : VertexState) (trackers : TrackerSet)
    (pipeline_id : RenderPipelineId)
    (r : Binder × OptionalState × OptionalState × IndexState × VertexState ×
      TrackerSet × List BackendCall)
    (h : setPipelineCore env context sample_count binder blend stencil index vertex
      trackers pipeline_id = some r) :
    ∃ vs : VertexState, r.2.2.2.2.1 = vs.update_limits := by
  unfold setPipelineCore at h
  dsimp only at h
  split at h
  · exact Option.noConfusion h
  · split at h
    · exact Option.noConfusion h
    · split at h
      case isFalse.isFalse.h_1 v heq =>
        cases h
        unfold vertexStridesUpdate at heq
        split at heq
        · cases heq
          exact ⟨_, rfl⟩
        · exact Option.noConfusion heq
      case isFalse.isFalse.h_2 => exact Option.noConfusion h

/-- Each interpreted command leaves the vertex state unchanged or replaces
it by an `update_limits` image. -/
theorem step_vertex_shape (env : Env) (context : RenderPassContext)
    (sample_count : Nat) (pool : List BufferAddress) (st : State) (tr : TrackerSet)
    (cmd : RenderCommand) (st2 : State) (tr2 : TrackerSet) (calls : List BackendCall)
    (h : runRenderCommand env context sample_count pool st tr cmd =
      some (st2, tr2, calls)) :
    st2.vertex = st.vertex ∨ ∃ vs : VertexState, st2.vertex = vs.update_limits := by
  cases cmd <;> simp only [runRenderCommand] at h
  case SetBindGroup i g a b =>
    split at h
    · split at h
      case isTrue.h_1 => cases h; exact Or.inl rfl
      case isTrue.h_2 => exact Option.noConfusion h
    · exact Option.noConfusion h
  case SetPipeline pid =>
    split at h
    case h_1 r heq =>
      cases h
      exact Or.inr (setPipelineCore_vertex _ _ _ _ _ _ _ _ _ _ _ heq)
    case h_2 => exact Option.noConfusion h
  case SetIndexBuffer bid off =>
    split at h
    · cases h; exact Or.inl rfl
    · exact Option.noConfusion h
  case SetVertexBuffer i bid off =>
    split at h
    · split at h
      · cases h; exact Or.inr ⟨_, rfl⟩
      · exact Option.noConfusion h
    · exact Option.noConfusion h
  case SetBlendValue c => cases h; exact Or.inl rfl
  case SetStencilReference v => cases h; exact Or.inl rfl
  case SetViewport r d0 d1 => cases h; exact Or.inl rfl
  case SetScissor r => cases h; exact Or.inl rfl
  case Draw a b c d =>
    split at h
    · exact Option.noConfusion h
    · split at h
      · split at h
        · cases h; exact Or.inl rfl
        · exact Option.noConfusion h
      · exact Option.noConfusion h
  case DrawIndexed a b c d e =>
    split at h
    · exact Option.noConfusion h
    · split at h
      · split at h
        · cases h; exact Or.inl rfl
        · exact Option.noConfusion h
      · exact Option.noConfusion h
  case DrawIndirect bid off =>
    split at h
    · exact Option.noConfusion h
    · split at h
      · cases h; exact Or.inl rfl
      · exact Option.noConfusion h
  case DrawIndexedIndirect bid off =>
    split at h
    · exact Option.noConfusion h
    · split at h
      · cases h; exact Or.inl rfl
      · exact Option.noConfusion h

/-- C5 counterexample: right after `RenderPass::new` no slot contributes
(all strides are 0), so the claimed invariant demands `u32::MAX`, but both
limits are 0. -/
theorem c5_counterexample :
    (RenderPass.new 0 testCtx TrackerSet.empty 1 4).vertex_state.vertex_limit = 0 ∧
    (RenderPass.new 0 testCtx TrackerSet.empty 1 4).vertex_state.instance_limit = 0 ∧
    specLimit InputStepMode.Vertex
      (RenderPass.new 0 testCtx TrackerSet.empty 1 4).vertex_state.inputs = u32MAX ∧
    specLimit InputStepMode.Instance
      (RenderPass.new 0 testCtx TrackerSet.empty 1 4).vertex_state.inputs = u32MAX ∧
    (0 : Nat) ≠ u32MAX := by
  refine ⟨rfl, rfl, by decide, by decide, by decide⟩

/-- C5 amended: `update_limits` establishes the spec's limit invariant and
every interpreted command preserves it (so it holds from the first
`SetPipeline` or `SetVertexBuffer` on), but the initial state right after
pass creation has `vertex_limit = instance_limit = 0`, not `u32::MAX`. -/
theorem c5_amended_limits_invariant :
    (∀ vs : VertexState, vertexInvariant vs.update_limits) ∧
    (∀ (env : Env) (context : RenderPassContext) (sample_count : Nat)
      (pool : List BufferAddress) (st : State) (tr : TrackerSet)
      (cmd : RenderCommand) (st2 : State) (tr2 : TrackerSet)
      (calls : List BackendCall),
      runRenderCommand env context sample_count pool st tr cmd =
        some (st2, tr2, calls) →
      vertexInvariant st.vertex → vertexInvariant st2.vertex) ∧
    (∀ (cmb_id : Nat) (context : RenderPassContext) (trackers : TrackerSet)
      (sample_count max_bind_groups : Nat),
      (RenderPass.new cmb_id context trackers sample_count
        max_bind_groups).vertex_state.vertex_limit = 0 ∧
      (RenderPass.new cmb_id context trackers sample_count
        max_bind_groups).vertex_state.instance_limit = 0) := by
  refine ⟨update_limits_establishes, ?_, ?_⟩
  · intro env context sample_count pool st tr cmd st2 tr2 calls h hinv
    rcases step_vertex_shape env context sample_count pool st tr cmd st2 tr2 calls h with
      he | ⟨vs, hv⟩
    · rw [he]; exact hinv
    · rw [hv]; exact update_limits_establishes vs
  · intro cmb_id context trackers sample_count max_bind_groups
    exact ⟨rfl, rfl⟩

/-- Witness for C5 at a concrete step: starting from a state whose limits
were recomputed, a `SetBlendValue` step preserves the invariant. -/
theorem c5_amended_limits_invariant_witness :
    vertexInvariant
      ({ testState with
          vertex := testState.vertex.update_limits
          blend_color := OptionalState.Set } : State).vertex :=
  c5_amended_limits_invariant.2.1 testEnv testCtx 1 []
    { testState with vertex := testState.vertex.update_limits } TrackerSet.empty
    (RenderCommand.SetBlendValue ⟨0, 0, 0, 1⟩)
    { testState with
        vertex := testState.vertex.update_limits
        blend_color := OptionalState.Set }
    TrackerSet.empty [BackendCall.set_blend_constants (map_color_f32 ⟨0, 0, 0, 1⟩)]
    rfl (c5_amended_limits_invariant.1 testState.vertex)

end WgpuRender

namespace WgpuRender

/-! ## C10 -/

/-- Abbreviation for the state produced by the `SetIndexBuffer` arm. -/
def setIndexBufferResultState (env : Env) (st : State) (buffer_id : BufferId)
    (offset : BufferAddress) : State :=
  let bbv := some (buffer_id, offset, (env.buffers buffer_id).size)
  let ix : IndexState := { st.index with bound_buffer_view := bbv }
  { st with index := ix.update_limit }

/-- Abbreviation for the state produced by the `SetVertexBuffer` arm. -/
def setVertexBufferResultState (env : Env) (st : State) (slot : Nat)
    (buffer_id : BufferId) (offset : BufferAddress) : State :=
  let vbs : VertexBufferState :=
    { st.vertex.inputs.getD slot VertexBufferState.EMPTY with
        total_size := u64sub (env.buffers buffer_id).size offset }
  let inputs := st.vertex.inputs.set slot vbs
  { st with vertex := VertexState.update_limits { st.vertex with inputs := inputs } }

/-- C10: `SetIndexBuffer` and `SetVertexBuffer` compute `buffer.size - offset`
(the wrapping u64 subtraction) with no check that `offset ≤ buffer.size`:
given the usage bit (and, for vertex, an in-range slot) the steps succeed for
an arbitrary offset — no validation rejects a larger one — and under the
precondition `offset ≤ buffer.size` the wrapping subtraction equals the exact
difference, so it never underflows. -/
theorem c10_no_offset_validation (env : Env) (context : RenderPassContext)
    (sample_count : Nat) (pool : List BufferAddress) (st : State) (tr : TrackerSet)
    (buffer_id : BufferId) (offset : BufferAddress) (slot : Nat)
    (husage_i : usageContains (env.buffers buffer_id).usage BufferUsage_INDEX = true)
    (husage_v : usageContains (env.buffers buffer_id).usage BufferUsage_VERTEX = true)
    (hslot : slot < st.vertex.inputs.length) :
    (∃ st2 calls, runRenderCommand env context sample_count pool st tr
        (RenderCommand.SetIndexBuffer buffer_id offset) =
          some (st2, tr.useExtendBuffer buffer_id BufferUsage_INDEX, calls) ∧
      st2.index.bound_buffer_view =
        some (buffer_id, offset, (env.buffers buffer_id).size)) ∧
    (∃ st2 calls, runRenderCommand env context sample_count pool st tr
        (RenderCommand.SetVertexBuffer slot buffer_id offset) =
          some (st2, tr.useExtendBuffer buffer_id BufferUsage_VERTEX, calls) ∧
      st2.vertex.inputs.get? slot = some
        { st.vertex.inputs.getD slot VertexBufferState.EMPTY with
            total_size := u64sub (env.buffers buffer_id).size offset }) ∧
    (∀ a b : Nat, a < 2 ^ 64 → b ≤ a → u64sub a b = a - b) := by
  refine ⟨?_, ?_, ?_⟩
  · refine ⟨setIndexBufferResultState env st buffer_id offset,
      [BackendCall.bind_index_buffer buffer_id offset
        (map_index_format (setIndexBufferResultState env st buffer_id offset).index.format)],
      ?_, ?_⟩
    · simp only [runRenderCommand, husage_i, if_true, setIndexBufferResultState]
    · simp [setIndexBufferResultState, IndexState.update_limit]
  · refine ⟨setVertexBufferResultState env st slot buffer_id offset,
      [BackendCall.bind_vertex_buffers slot [(buffer_id, offset)]], ?_, ?_⟩
    · simp only [runRenderCommand, husage_v, if_true, if_pos hslot,
        setVertexBufferResultState]
    · simp only [setVertexBufferResultState, VertexState.update_limits]
      rw [List.get?_eq_getElem?, List.getElem?_set_self hslot]
  · intro a b ha hb
    unfold u64sub
    omega

/-- Witness for C10: buffer size 8 with `offset = 100 > size` is accepted by
both setters, and the in-range subtraction for `offset = 3` is exact. -/
theorem c10_no_offset_validation_witness :
    (∃ st2 calls, runRenderCommand testEnv testCtx 1 [] testState TrackerSet.empty
        (RenderCommand.SetIndexBuffer 0 100) =
          some (st2, TrackerSet.empty.useExtendBuffer 0 BufferUsage_INDEX, calls) ∧
      st2.index.bound_buffer_view = some (0, 100, (testEnv.buffers 0).size)) ∧
    (∃ st2 calls, runRenderCommand testEnv testCtx 1 [] testState TrackerSet.empty
        (RenderCommand.SetVertexBuffer 3 0 100) =
          some (st2, TrackerSet.empty.useExtendBuffer 0 BufferUsage_VERTEX, calls) ∧
      st2.vertex.inputs.get? 3 = some
        { testState.vertex.inputs.getD 3 VertexBufferState.EMPTY with
            total_size := u64sub (testEnv.buffers 0).size 100 }) ∧
    (∀ a b : Nat, a < 2 ^ 64 → b ≤ a → u64sub a b = a - b) :=
  c10_no_offset_validation testEnv testCtx 1 [] testState TrackerSet.empty 0 100 3
    (by decide) (by decide) (by decide)

end WgpuRender

namespace WgpuRender

/-! ## C7 -/

/-- Every call the SetPipeline rebind walk emits is a descriptor-set bind. -/
theorem rebindWalk_calls_shape (pl_id : PipelineLayoutId) :
    ∀ (es : List BinderEntry) (bgls : List BindGroupLayoutId) (i : Nat) (compat : Bool)
      (c : BackendCall), c ∈ (rebindWalk pl_id es bgls i compat).2 →
      ∃ l fs sets offs, c = BackendCall.bind_graphics_descriptor_sets l fs sets offs := by
  intro es
  induction es with
  | nil =>
      intro bgls i compat c hc
      cases bgls <;> simp [rebindWalk] at hc
  | cons e rest ih =>
      intro bgls i compat c hc
      cases bgls with
      | nil => simp [rebindWalk] at hc
      | cons bgl bgls =>
          simp only [rebindWalk] at hc
          rcases hm : e.expect_layout bgl with ⟨e2, ch⟩
          rw [hm] at hc
          cases ch with
          | Match bg offs =>
              dsimp only at hc
              by_cases hcompat : compat
              · rw [if_pos hcompat] at hc
                rcases List.mem_cons.mp hc with hceq | hctail
                · exact ⟨_, _, _, _, hceq⟩
                · exact ih bgls (i + 1) compat c hctail
              · rw [if_neg hcompat] at hc
                exact ih bgls (i + 1) compat c hc
          | Unchanged =>
              dsimp only at hc
              exact ih bgls (i + 1) compat c hc
          | Mismatch =>
              dsimp only at hc
              exact ih bgls (i + 1) false c hc

/-- Every call the pipeline-change binder block emits is a descriptor-set
bind (in particular, never an index-buffer bind). -/
theorem binderChangePipeline_calls_shape (env : Env) (b : Binder)
    (p : RenderPipeline) (c : BackendCall)
    (hc : c ∈ (binderChangePipeline env b p).2) :
    ∃ l fs sets offs, c = BackendCall.bind_graphics_descriptor_sets l fs sets offs := by
  unfold binderChangePipeline at hc
  split at hc
  · exact rebindWalk_calls_shape _ _ _ _ _ c hc
  · simp at hc

/-- C7: a `SetIndexBuffer {b, off}` directly followed by a `SetPipeline`
whose `index_format` differs succeeds with
`index.limit = ((b.size - off) >> shift(new_format)) as u32` and a second
backend `bind_index_buffer` carrying the new format in the trace; a
format-changing `SetPipeline` with no bound index buffer emits no
index-buffer bind at all and leaves `limit = 0`. -/
theorem c7_index_format_rebind (env : Env) (context : RenderPassContext)
    (sample_count : Nat) (pool : List BufferAddress) (st : State) (tr : TrackerSet)
    (buffer_id : BufferId) (offset : BufferAddress) (pipeline_id : RenderPipelineId)
    (husage : usageContains (env.buffers buffer_id).usage BufferUsage_INDEX = true)
    (hoff : offset ≤ (env.buffers buffer_id).size)
    (hsz : (env.buffers buffer_id).size < 2 ^ 64)
    (hctx : context.compatible (env.pipelines pipeline_id).pass_context = true)
    (hsc : (env.pipelines pipeline_id).sample_count = sample_count)
    (hfmt : (env.pipelines pipeline_id).index_format ≠ st.index.format)
    (hstr : (env.pipelines pipeline_id).vertex_strides.length ≤
      st.vertex.inputs.length) :
    ((∃ r, runRenderCommands env context sample_count pool st tr
        [RenderCommand.SetIndexBuffer buffer_id offset,
         RenderCommand.SetPipeline pipeline_id] = some r) ∧
     (∀ st2 tr2 calls, runRenderCommands env context sample_count pool st tr
          [RenderCommand.SetIndexBuffer buffer_id offset,
           RenderCommand.SetPipeline pipeline_id] = some (st2, tr2, calls) →
        st2.index.limit =
          u32trunc (((env.buffers buffer_id).size - offset) >>>
            (match (env.pipelines pipeline_id).index_format with
             | IndexFormat.Uint16 => 1
             | IndexFormat.Uint32 => 2)) ∧
        BackendCall.bind_index_buffer buffer_id offset
          (env.pipelines pipeline_id).index_format ∈ calls)) ∧
    (st.index.bound_buffer_view = none →
      (∃ r, runRenderCommand env context sample_count pool st tr
          (RenderCommand.SetPipeline pipeline_id) = some r) ∧
      (∀ st2 tr2 calls, runRenderCommand env context sample_count pool st tr
            (RenderCommand.SetPipeline pipeline_id) = some (st2, tr2, calls) →
          st2.index.limit = 0 ∧
          ∀ c ∈ calls, ∀ b o f, c ≠ BackendCall.bind_index_buffer b o f)) := by
  have hszn : (env.buffers buffer_id).size < 18446744073709551616 := by
    norm_num at hsz
    exact hsz
  have hoffn : offset ≤ (env.buffers buffer_id).size := hoff
  have key : ∀ A B : Nat, A < 18446744073709551616 → B ≤ A → u64sub A B = A - B := by
    intro A B hA hB
    unfold u64sub
    omega
  have hu64 : u64sub (env.buffers buffer_id).size offset =
      (env.buffers buffer_id).size - offset := key _ _ hszn hoffn
  have hvsu : ∃ v, vertexStridesUpdate st.vertex (env.pipelines pipeline_id) = some v := by
    unfold vertexStridesUpdate
    rw [if_pos hstr]
    exact ⟨_, rfl⟩
  obtain ⟨vsu, hvsu⟩ := hvsu
  have hfmt2 : st.index.format ≠ (env.pipelines pipeline_id).index_format := Ne.symm hfmt
  constructor
  · constructor
    · simp [runRenderCommands, runRenderCommand, husage, setPipelineCore, hvsu,
        hctx, hsc, IndexState.update_limit]
    · intro st2 tr2 calls h
      simp [runRenderCommands, runRenderCommand, husage, setPipelineCore, hvsu,
        hctx, hsc, IndexState.update_limit, indexFormatRebind, hfmt2,
        map_index_format] at h
      obtain ⟨hst, htr, hcalls⟩ := h
      constructor
      · rw [← hst]
        simp [IndexState.update_limit, hu64]
      · rw [← hcalls]
        simp [List.mem_append, List.mem_cons]
  · intro hbound
    constructor
    · simp [runRenderCommand, setPipelineCore, hvsu, hctx, hsc]
    · intro st2 tr2 calls h
      simp [runRenderCommand, setPipelineCore, hvsu, hctx, hsc,
        indexFormatRebind, hfmt2, hbound, IndexState.update_limit] at h
      obtain ⟨hst, htr, hcalls⟩ := h
      constructor
      · rw [← hst]
      · intro c hc b o f
        rw [← hcalls] at hc
        simp only [List.mem_cons, List.mem_append] at hc
        rcases hc with hc | hc
        · rw [hc]
          intro hcontra
          exact BackendCall.noConfusion hcontra
        · obtain ⟨l, fs, sets, offs, hshape⟩ :=
            binderChangePipeline_calls_shape env st.binder
              (env.pipelines pipeline_id) c hc
          rw [hshape]
          intro hcontra
          exact BackendCall.noConfusion hcontra

end WgpuRender

namespace WgpuRender

/-- Witness for C7 at the fixtures: buffer size 8, initial format Uint16,
pipeline format Uint32 — the two-command run succeeds and the rebound limit
is `(8 - 0) >> 2 = 2`. -/
theorem c7_index_format_rebind_witness :
    ∃ r, runRenderCommands testEnv testCtx 1 [] testState TrackerSet.empty
        [RenderCommand.SetIndexBuffer 0 0, RenderCommand.SetPipeline 0] = some r ∧
      r.1.index.limit = 2 := by
  have h := c7_index_format_rebind testEnv testCtx 1 [] testState TrackerSet.empty
    0 0 0 (by decide) (by decide) (by decide) (by decide) (by decide) (by decide)
    (by decide)
  obtain ⟨⟨r, hr⟩, hinv⟩ := h.1
  refine ⟨r, hr, ?_⟩
  have hprops := hinv r.1 r.2.1 r.2.2 (by rw [hr])
  rw [hprops.1]
  decide

end WgpuRender

namespace WgpuRender

/-! ## C9 -/

theorem checkExtent_some (x : Option (Nat × Nat)) (e : Nat × Nat)
    (y : Option (Nat × Nat)) (h : checkExtent x e = some y) :
    y = some e ∧ ∀ e0, x = some e0 → y = some e0 := by
  unfold checkExtent at h
  cases x with
  | some ex =>
      rw [show (match some ex with
        | some ex => if ex = e then some (some ex) else none
        | none => some (some e)) = if ex = e then some (some ex) else none from rfl] at h
      split at h
      case isTrue he =>
        cases h
        exact ⟨by rw [he], fun e0 he0 => by cases he0; rfl⟩
      case isFalse => exact Option.noConfusion h
  | none =>
      cases h
      exact ⟨rfl, fun e0 he0 => Option.noConfusion he0⟩

/-- A successfully processed color attachment records exactly its view's
extent, and an already-recorded extent is unchanged (so it must agree). -/
theorem processColorAttachment_extent (env : Env) (us : Option TextureViewId)
    (sc : Nat) (bs : BeginSt) (att : ColorAttachment) (r : BeginSt × HalAttachment)
    (h : processColorAttachment env us sc bs att = some r) :
    r.1.extent = some ((env.views att.attachment).extent) ∧
    ∀ e, bs.extent = some e → r.1.extent = some e := by
  unfold processColorAttachment at h
  dsimp only at h
  split at h
  · exact Option.noConfusion h
  case h_2 extent hchk =>
    obtain ⟨hex, hmono⟩ := checkExtent_some _ _ _ hchk
    split at h
    case isTrue =>
      split at h
      case h_1 source_id =>
        cases h
        exact ⟨hex, fun e he => hmono e he⟩
      case h_2 =>
        split at h
        case h_1 view_id =>
          split at h
          case isTrue =>
            cases h
            exact ⟨hex, fun e he => hmono e he⟩
          case isFalse => exact Option.noConfusion h
        case h_2 =>
          split at h
          case isTrue =>
            cases h
            exact ⟨hex, fun e he => hmono e he⟩
          case isFalse => exact Option.noConfusion h
    case isFalse => exact Option.noConfusion h

/-- Over the color-attachment walk: a recorded extent persists, and every
walked attachment's view extent equals the final recorded extent. -/
theorem processColorAttachments_extent (env : Env) (us : Option TextureViewId)
    (sc : Nat) :
    ∀ (atts : List ColorAttachment) (bs : BeginSt) (r : BeginSt × List HalAttachment),
      processColorAttachments env us sc bs atts = some r →
      (∀ e, bs.extent = some e → r.1.extent = some e) ∧
      ∀ att ∈ atts, r.1.extent = some ((env.views att.attachment).extent) := by
  intro atts
  induction atts with
  | nil =>
      intro bs r h
      cases h
      exact ⟨fun e he => he, fun att hatt => absurd hatt (List.not_mem_nil att)⟩
  | cons att rest ih =>
      intro bs r h
      unfold processColorAttachments at h
      split at h
      · exact Option.noConfusion h
      case h_2 bs2 ha heq1 =>
        split at h
        · exact Option.noConfusion h
        case h_2 bs3 has heq2 =>
          cases h
          obtain ⟨hex1, hmono1⟩ := processColorAttachment_extent env us sc bs att _ heq1
          obtain ⟨hmono2, hmem2⟩ := ih bs2 _ heq2
          refine ⟨fun e he => hmono2 e (hmono1 e he), ?_⟩
          intro a ha2
          rcases List.mem_cons.mp ha2 with rfl | hrest
          · exact hmono2 _ hex1
          · exact hmem2 a hrest

/-- A successfully processed resolve attachment leaves the extent unchanged. -/
theorem processResolveAttachment_extent (env : Env) (us : Option TextureViewId)
    (bs : BeginSt) (rt : TextureViewId) (r : BeginSt × HalAttachment)
    (h : processResolveAttachment env us bs rt = some r) :
    r.1.extent = bs.extent := by
  unfold processResolveAttachment at h
  dsimp only at h
  split at h
  case isTrue =>
    split at h
    case isTrue =>
      split at h
      case h_1 source_id =>
        cases h
        rfl
      case h_2 =>
        split at h
        case h_1 view_id =>
          split at h
          case isTrue =>
            cases h
            rfl
          case isFalse => exact Option.noConfusion h
        case h_2 =>
          split at h
          case isTrue =>
            cases h
            rfl
          case isFalse => exact Option.noConfusion h
    case isFalse => exact Option.noConfusion h
  case isFalse => exact Option.noConfusion h

theorem processResolveAttachments_extent (env : Env) (us : Option TextureViewId) :
    ∀ (rts : List TextureViewId) (bs : BeginSt) (r : BeginSt × List HalAttachment),
      processResolveAttachments env us bs rts = some r →
      r.1.extent = bs.extent := by
  intro rts
  induction rts with
  | nil =>
      intro bs r h
      cases h
      rfl
  | cons rt rest ih =>
      intro bs r h
      unfold processResolveAttachments at h
      split at h
      · exact Option.noConfusion h
      case h_2 bs2 ha heq1 =>
        split at h
        · exact Option.noConfusion h
        case h_2 bs3 has heq2 =>
          cases h
          rw [ih bs2 _ heq2, processResolveAttachment_extent env us bs rt _ heq1]

/-- C9: when the begin phase succeeds, `command_encoder_run_render_pass`
emits `begin_render_pass` immediately followed by one `set_scissors` and one
`set_viewports` at binding 0, both with the full-extent rect (x = 0, y = 0,
w/h the attachment extent cast `as i16`) and viewport depth `0.0 .. 1.0`,
before the trace of any interpreted command; every color attachment's view
extent equals the recorded extent, and extents below `2^15` survive the i16
cast unchanged. -/
theorem c9_default_viewport_scissor (env : Env) (caches : DeviceCaches)
    (cmb : CommandBuffer) (pass : StandaloneRenderPass) (bc : BeginCore)
    (hb : beginRenderPassCore env caches cmb pass = some bc) :
    (∀ att ∈ pass.color_attachments,
      (env.views att.attachment).extent = bc.extent) ∧
    (beginCalls pass bc =
      [BackendCall.begin_render_pass bc.rp_key bc.fb_key (beginRect bc)
        (clearValuesOf pass bc.rp_key),
       BackendCall.set_scissors 0 [beginRect bc],
       BackendCall.set_viewports 0 [(beginRect bc, 0, 1)]]) ∧
    (∀ cmbR cachesR calls,
      command_encoder_run_render_pass env caches cmb pass =
        some (cmbR, cachesR, calls) →
      ∃ rest, calls = beginCalls pass bc ++ rest) ∧
    (bc.extent.1 < 32768 → (beginRect bc).w = (bc.extent.1 : Int)) ∧
    (bc.extent.2 < 32768 → (beginRect bc).h = (bc.extent.2 : Int)) := by
  have wrap_fit : ∀ w : Nat, w < 32768 → i16_wrap_of_u32 w = (w : Int) := by
    intro w hw
    unfold i16_wrap_of_u32
    rw [Nat.mod_eq_of_lt (by omega)]
    rw [if_pos hw]
  refine ⟨?_, rfl, ?_, fun hw => wrap_fit _ hw, fun hw => wrap_fit _ hw⟩
  · unfold beginRenderPassCore at hb
    dsimp only at hb
    split at hb
    case isFalse => exact Option.noConfusion hb
    case isTrue hs =>
      split at hb
      · exact Option.noConfusion hb
      case h_2 bs1 depth_stencil heqds =>
        split at hb
        · exact Option.noConfusion hb
        case h_2 bs2 colors heqc =>
          split at hb
          · exact Option.noConfusion hb
          case h_2 bs3 resolves heqr =>
            split at hb
            · exact Option.noConfusion hb
            case h_2 trackers heqt =>
              split at hb
              · exact Option.noConfusion hb
              case h_2 caches2 heqlrp =>
                split at hb
                · exact Option.noConfusion hb
                case h_2 pr heqlfb =>
                  split at hb
                  · exact Option.noConfusion hb
                  case h_2 ex hex =>
                    cases hb
                    intro att hatt
                    have hmem :=
                      (processColorAttachments_extent env cmb.used_swap_chain _
                        pass.color_attachments bs1 _ heqc).2 att hatt
                    have hpres := processResolveAttachments_extent env
                      cmb.used_swap_chain _ bs2 _ heqr
                    rw [hpres] at hex
                    rw [hmem] at hex
                    exact Option.some.inj hex
  · intro cmbR cachesR calls hr
    unfold command_encoder_run_render_pass at hr
    simp only [hb] at hr
    split at hr
    · exact Option.noConfusion hr
    · cases hr
      exact ⟨_, rfl⟩

def testPassSwap : StandaloneRenderPass :=
  { color_attachments := [testColor 0], depth_stencil_attachment := none
    commands := [], offsets := [] }

/-- Witness for C9 at the swap-chain fixture pass: the begin phase succeeds
and every color attachment's extent equals the recorded 4x4 extent. -/
theorem c9_default_viewport_scissor_witness :
    ∃ bc, beginRenderPassCore testEnv testCaches testCmb testPassSwap = some bc ∧
      (∀ att ∈ testPassSwap.color_attachments,
        (testEnv.views att.attachment).extent = bc.extent) ∧
      (bc.extent.1 < 32768 → (beginRect bc).w = (bc.extent.1 : Int)) := by
  cases hsome : beginRenderPassCore testEnv testCaches testCmb testPassSwap with
  | none => exact absurd hsome (by decide)
  | some bc =>
      have h := c9_default_viewport_scissor testEnv testCaches testCmb testPassSwap
        bc hsome
      exact ⟨bc, rfl, h.1, h.2.2.2.1⟩

end WgpuRender

namespace WgpuRender

/-! ## C2 -/

/-- A command buffer that has already attached (and initialized) swap-chain
view 0 in a previous pass. -/
def testCmbSwapUsed : CommandBuffer :=
  { trackers := { buffers := [], textures := [], views := [0], bind_groups := [] }
    used_swap_chain := some 0
    features_max_bind_groups := 4 }

/-- C2 counterexample: a second pass in the same command buffer reusing the
SAME swap-chain view S succeeds (with layouts `Present → Present`) — it does
not fail with an assertion failure as the claim states. -/
theorem c2_counterexample :
    (beginRenderPassCore testEnv testCaches testCmbSwapUsed testPassSwap).map
        (fun bc => bc.rp_key.colors.map (fun c => c.layouts)) =
      some [(ImageLayout.Present, ImageLayout.Present)] := by
  decide

/-- C2 amended: for a single-color pass on a swap-chain view S (fresh device
caches): on first use in the command buffer the attachment layouts are
`Undefined → Present` and the command buffer registers S as its single
swap-chain image; a later pass attaching a DIFFERENT swap-chain view fails
the assertion; but a later pass reusing S itself succeeds, with layouts
`Present → Present`. -/
theorem c2_swap_chain_layouts (env : Env) (caches : DeviceCaches)
    (cmb : CommandBuffer) (att : ColorAttachment)
    (commands : List RenderCommand) (offsets : List BufferAddress)
    (hview : (env.views att.attachment).inner = TextureViewInner.SwapChain)
    (hres : att.resolve_target = none)
    (hsmp : (env.views att.attachment).samples &&& env.samples_count_limit ≠ 0)
    (hcr : caches.render_passes = [])
    (hcf : caches.framebuffers = []) :
    (cmb.used_swap_chain = none → att.attachment ∉ cmb.trackers.views →
      ∃ bc, beginRenderPassCore env caches cmb
          ⟨[att], none, commands, offsets⟩ = some bc ∧
        bc.rp_key.colors.map (fun c => c.layouts) =
          [(ImageLayout.Undefined, ImageLayout.Present)] ∧
        bc.cmb.used_swap_chain = some att.attachment) ∧
    (cmb.used_swap_chain = some att.attachment →
      att.attachment ∈ cmb.trackers.views →
      ∃ bc, beginRenderPassCore env caches cmb
          ⟨[att], none, commands, offsets⟩ = some bc ∧
        bc.rp_key.colors.map (fun c => c.layouts) =
          [(ImageLayout.Present, ImageLayout.Present)]) ∧
    (∀ v0, cmb.used_swap_chain = some v0 → v0 ≠ att.attachment →
      beginRenderPassCore env caches cmb ⟨[att], none, commands, offsets⟩ =
        none) := by
  refine ⟨?_, ?_, ?_⟩
  · intro hswap hnotin
    simp [beginRenderPassCore, processColorAttachments, processColorAttachment,
      processResolveAttachments, recordOutputAttachments, checkExtent, idInit,
      lookupRenderPass, lookupFramebuffer, resolveSampleChecks,
      hview, hres, hsmp, hswap, hnotin, hcr, hcf]
  · intro hswap hin
    simp [beginRenderPassCore, processColorAttachments, processColorAttachment,
      processResolveAttachments, recordOutputAttachments, checkExtent, idInit,
      lookupRenderPass, lookupFramebuffer, resolveSampleChecks,
      hview, hres, hsmp, hswap, hin, hcr, hcf]
  · intro v0 hswap hne
    simp [beginRenderPassCore, processColorAttachments, processColorAttachment,
      processResolveAttachments, recordOutputAttachments, checkExtent, idInit,
      lookupRenderPass, lookupFramebuffer, resolveSampleChecks,
      hview, hres, hsmp, hswap, hne, hcr, hcf]

/-- Witness for C2 at the fixtures: first pass on swap-chain view 0. -/
theorem c2_swap_chain_layouts_witness :
    ∃ bc, beginRenderPassCore testEnv testCaches testCmb
        ⟨[testColor 0], none, [], []⟩ = some bc ∧
      bc.rp_key.colors.map (fun c => c.layouts) =
        [(ImageLayout.Undefined, ImageLayout.Present)] ∧
      bc.cmb.used_swap_chain = some (testColor 0).attachment :=
  (c2_swap_chain_layouts testEnv testCaches testCmb (testColor 0) [] []
    (by decide) (by decide) (by decide) (by decide) (by decide)).1
    (by decide) (by decide)

end WgpuRender

namespace WgpuRender

/-! ## C1 -/

/-- A pass on the native (non-swap-chain) view with one buffer-using
command. -/
def testPassNative : StandaloneRenderPass :=
  { color_attachments := [testColor 1], depth_stencil_attachment := none
    commands := [RenderCommand.SetIndexBuffer 0 0], offsets := [] }

/-- C1 evaluation at the failing input: `command_encoder_run_render_pass`
completes the pass, yet its emitted trace contains zero `end_render_pass`
calls and the owning command buffer's final tracker records no buffer use —
even though interpreting the very same commands does record the index buffer
on the pass-local TrackerSet, which the function drops instead of merging. -/
theorem c1_missing_end_and_merge :
    ((command_encoder_run_render_pass testEnv testCaches testCmb
        testPassNative).map (fun r =>
          ((r.2.2.filter (fun c => decide (c = BackendCall.end_render_pass))).length,
            r.1.trackers.buffers))) = some (0, []) ∧
    ((beginRenderPassCore testEnv testCaches testCmb testPassNative).map
        (fun bc => (runRenderCommands testEnv bc.context bc.sample_count []
            testState bc.trackers testPassNative.commands).map
          (fun ir => ir.2.1.buffers))) = some (some [(0, BufferUsage_INDEX)]) := by
  constructor
  · decide
  · decide

end WgpuRender

namespace WgpuRender

/-! ## C4 -/

/-- The incremental `RenderPass` object holding the same logical state as an
encoded interpreter configuration. -/
def passOf (cmb_id : Nat) (context : RenderPassContext) (sample_count : Nat)
    (st : State) (tr : TrackerSet) : RenderPass :=
  { cmb_id := cmb_id
    context := context
    binder := st.binder
    trackers := tr
    blend_color_status := st.blend_color
    stencil_reference_status := st.stencil_reference
    index_state := st.index
    vertex_state := st.vertex
    sample_count := sample_count }

/-- C4 counterexample: `SetVertexBuffer` at slot `MAX_VERTEX_BUFFERS = 8`
panics in the encoded interpreter (`inputs[8]` is out of bounds) while the
equivalent incremental `set_vertex_buffers(8, [b], [o])` succeeds (the slice
`inputs[8 ..]` is empty, so the zip loop runs zero times) and still emits a
`bind_vertex_buffers` call: the two APIs disagree on this command. -/
theorem c4_counterexample :
    runRenderCommand testEnv testCtx 1 [] testState TrackerSet.empty
        (RenderCommand.SetVertexBuffer 8 0 0) = none ∧
    (applyIncremental testEnv [] (passOf 0 testCtx 1 testState TrackerSet.empty)
        (RenderCommand.SetVertexBuffer 8 0 0)).map (fun r => r.2) =
      some [BackendCall.bind_vertex_buffers 8 [(0, 0)]] := by
  constructor
  · decide
  · decide

theorem copyStrides_length :
    ∀ (inputs : List VertexBufferState) (strides : List (Nat × InputStepMode)),
      (copyStrides inputs strides).length = inputs.length := by
  intro inputs
  induction inputs with
  | nil => intro strides; cases strides <;> rfl
  | cons v rest ih =>
      intro strides
      cases strides with
      | nil => rfl
      | cons s ss =>
          rcases s with ⟨a, b⟩
          simp [copyStrides, ih]

theorem vertexStridesUpdate_length (vertex : VertexState) (p : RenderPipeline)
    (vsu : VertexState) (h : vertexStridesUpdate vertex p = some vsu) :
    vsu.inputs.length = vertex.inputs.length := by
  unfold vertexStridesUpdate at h
  split at h
  case isTrue hle =>
    cases h
    simp only [VertexState.update_limits, List.length_append, List.length_take,
      List.length_map, List.length_drop, copyStrides_length]
    omega
  case isFalse => exact Option.noConfusion h

/-- `setPipelineCore` preserves the vertex-slot count. -/
theorem setPipelineCore_inputs_length (env : Env) (context : RenderPassContext)
    (sample_count : Nat) (binder : Binder) (blend stencil : OptionalState)
    (index : IndexState) (vertex : VertexState) (trackers : TrackerSet)
    (pipeline_id : RenderPipelineId)
    (r : Binder × OptionalState × OptionalState × IndexState × VertexState ×
      TrackerSet × List BackendCall)
    (h : setPipelineCore env context sample_count binder blend stencil index vertex
      trackers pipeline_id = some r) :
    r.2.2.2.2.1.inputs.length = vertex.inputs.length := by
  unfold setPipelineCore at h
  dsimp only at h
  split at h
  · exact Option.noConfusion h
  · split at h
    · exact Option.noConfusion h
    · split at h
      case isFalse.isFalse.h_1 v heq =>
        cases h
        exact vertexStridesUpdate_length _ _ _ heq
      case isFalse.isFalse.h_2 => exact Option.noConfusion h

/-- Each interpreted command preserves the vertex-slot count. -/
theorem step_inputs_length (env : Env) (context : RenderPassContext)
    (sample_count : Nat) (pool : List BufferAddress) (st : State) (tr : TrackerSet)
    (cmd : RenderCommand) (st2 : State) (tr2 : TrackerSet) (calls : List BackendCall)
    (h : runRenderCommand env context sample_count pool st tr cmd =
      some (st2, tr2, calls)) :
    st2.vertex.inputs.length = st.vertex.inputs.length := by
  cases cmd <;> simp only [runRenderCommand] at h
  case SetBindGroup i g a b =>
    split at h
    · split at h
      case isTrue.h_1 => cases h; rfl
      case isTrue.h_2 => exact Option.noConfusion h
    · exact Option.noConfusion h
  case SetPipeline pid =>
    split at h
    case h_1 r heq =>
      cases h
      exact setPipelineCore_inputs_length _ _ _ _ _ _ _ _ _ _ _ heq
    case h_2 => exact Option.noConfusion h
  case SetIndexBuffer bid off =>
    split at h
    · cases h; rfl
    · exact Option.noConfusion h
  case SetVertexBuffer i bid off =>
    split at h
    · split at h
      · cases h
        simp [VertexState.update_limits]
      · exact Option.noConfusion h
    · exact Option.noConfusion h
  case SetBlendValue c => cases h; rfl
  case SetStencilReference v => cases h; rfl
  case SetViewport r d0 d1 => cases h; rfl
  case SetScissor r => cases h; rfl
  case Draw a b c d =>
    split at h
    · exact Option.noConfusion h
    · split at h
      · split at h
        · cases h; rfl
        · exact Option.noConfusion h
      · exact Option.noConfusion h
  case DrawIndexed a b c d e =>
    split at h
    · exact Option.noConfusion h
    · split at h
      · split at h
        · cases h; rfl
        · exact Option.noConfusion h
      · exact Option.noConfusion h
  case DrawIndirect bid off =>
    split at h
    · exact Option.noConfusion h
    · split at h
      · cases h; rfl
      · exact Option.noConfusion h
  case DrawIndexedIndirect bid off =>
    split at h
    · exact Option.noConfusion h
    · split at h
      · cases h; rfl
      · exact Option.noConfusion h

end WgpuRender

namespace WgpuRender

/-- One logical command taken through the incremental entry point produces
exactly the (state-corresponded) result of the encoded interpreter arm,
provided a `SetVertexBuffer` index is within the slot range (outside it the
two APIs disagree — see the C4 counterexample). -/
theorem applyIncremental_eq_runRenderCommand (env : Env) (pool : List BufferAddress)
    (cmb_id : Nat) (context : RenderPassContext) (sample_count : Nat)
    (st : State) (tr : TrackerSet) (cmd : RenderCommand)
    (hidx : ∀ i b o, cmd = RenderCommand.SetVertexBuffer i b o →
      i < st.vertex.inputs.length) :
    applyIncremental env pool (passOf cmb_id context sample_count st tr) cmd =
      (runRenderCommand env context sample_count pool st tr cmd).map
        (fun r => (passOf cmb_id context sample_count r.1 r.2.1, r.2.2)) := by
  cases cmd with
  | SetBindGroup i g a b =>
      simp only [applyIncremental, runRenderCommand, render_pass_set_bind_group, passOf]
      by_cases hcond : a ≤ b ∧ b ≤ pool.length
      · simp only [if_pos hcond]
        cases hcore : setBindGroupCore env st.binder tr i g
            ((pool.drop a).take (b - a)) with
        | none => simp
        | some r =>
            rcases r with ⟨bd, trk, calls⟩
            simp [passOf]
      · simp [if_neg hcond]
  | SetPipeline pid =>
      simp only [applyIncremental, render_pass_set_pipeline, runRenderCommand, passOf]
      cases hcore : setPipelineCore env context sample_count st.binder st.blend_color
          st.stencil_reference st.index st.vertex tr pid with
      | none => simp
      | some r =>
          rcases r with ⟨bd, bl, stc, ix, vx, trk, calls⟩
          simp [passOf]
  | SetIndexBuffer bid off =>
      simp only [applyIncremental, render_pass_set_index_buffer, runRenderCommand,
        passOf]
      by_cases hu : usageContains (env.buffers bid).usage BufferUsage_INDEX = true
      · simp [hu, passOf]
      · simp [hu]
  | SetVertexBuffer i bid off =>
      have hlen : i < st.vertex.inputs.length := hidx i bid off rfl
      have hdrop := List.drop_eq_getElem_cons hlen
      simp only [applyIncremental, render_pass_set_vertex_buffers, runRenderCommand,
        passOf]
      rw [if_neg (by simp)]
      rw [if_pos (le_of_lt hlen)]
      rw [show ([bid].zip [off]) = [(bid, off)] from rfl]
      rw [hdrop]
      by_cases hu : usageContains (env.buffers bid).usage BufferUsage_VERTEX = true
      · simp only [setVertexBuffersLoop, hu, if_true]
        simp only [hu, if_true, if_pos hlen]
        rw [List.getD_eq_getElem _ _ hlen]
        rw [List.set_eq_take_cons_drop _ hlen]
        simp [passOf]
      · simp [setVertexBuffersLoop, hu]
  | SetBlendValue c =>
      simp [applyIncremental, render_pass_set_blend_color, runRenderCommand, passOf]
  | SetStencilReference v =>
      simp [applyIncremental, render_pass_set_stencil_reference, runRenderCommand,
        passOf]
  | SetViewport r d0 d1 =>
      simp [applyIncremental, render_pass_set_viewport, runRenderCommand, passOf]
  | SetScissor r =>
      simp [applyIncremental, render_pass_set_scissor_rect, runRenderCommand, passOf]
  | Draw a b c d =>
      simp only [applyIncremental, render_pass_draw, runRenderCommand]
      rw [show (passOf cmb_id context sample_count st tr).is_ready = st.is_ready
        from rfl]
      cases st.is_ready with
      | error e => simp
      | ok u =>
          cases u
          simp only [passOf]
          split_ifs <;> simp [passOf]
  | DrawIndexed a b c d e =>
      simp only [applyIncremental, render_pass_draw_indexed, runRenderCommand]
      rw [show (passOf cmb_id context sample_count st tr).is_ready = st.is_ready
        from rfl]
      cases st.is_ready with
      | error e2 => simp
      | ok u =>
          cases u
          simp only [passOf]
          split_ifs <;> simp [passOf]
  | DrawIndirect bid off =>
      simp only [applyIncremental, render_pass_draw_indirect, runRenderCommand]
      rw [show (passOf cmb_id context sample_count st tr).is_ready = st.is_ready
        from rfl]
      cases st.is_ready with
      | error e => simp
      | ok u =>
          cases u
          simp only [passOf]
          split_ifs <;> simp [passOf]
  | DrawIndexedIndirect bid off =>
      simp only [applyIncremental, render_pass_draw_indexed_indirect, runRenderCommand]
      rw [show (passOf cmb_id context sample_count st tr).is_ready = st.is_ready
        from rfl]
      cases st.is_ready with
      | error e => simp
      | ok u =>
          cases u
          simp only [passOf]
          split_ifs <;> simp [passOf]

end WgpuRender

namespace WgpuRender

/-- C4 amended: for every logical command sequence whose `SetVertexBuffer`
indices are within the vertex-slot range, running it through the incremental
`render_pass_*` entry points from the corresponding pass object produces
exactly the same final pass state (binder, blend color, stencil reference,
index state, vertex state, trackers) and the same backend-call trace as the
encoded interpreter of `command_encoder_run_render_pass` — including both
succeeding or both failing; at an out-of-range `SetVertexBuffer` index the
two APIs disagree (see the counterexample), which is the only exclusion. -/
theorem c4_amended_equivalence (env : Env) (pool : List BufferAddress)
    (cmb_id : Nat) (context : RenderPassContext) (sample_count : Nat) :
    ∀ (cmds : List RenderCommand) (st : State) (tr : TrackerSet),
      (∀ i b o, RenderCommand.SetVertexBuffer i b o ∈ cmds →
        i < st.vertex.inputs.length) →
      runIncremental env pool (passOf cmb_id context sample_count st tr) cmds =
        (runRenderCommands env context sample_count pool st tr cmds).map
          (fun r => (passOf cmb_id context sample_count r.1 r.2.1, r.2.2)) := by
  intro cmds
  induction cmds with
  | nil => intro st tr hidx; rfl
  | cons c cs ih =>
      intro st tr hidx
      simp only [runIncremental, runRenderCommands]
      rw [applyIncremental_eq_runRenderCommand env pool cmb_id context sample_count
        st tr c (fun i b o hc => hidx i b o (hc ▸ List.mem_cons_self c cs))]
      cases hstep : runRenderCommand env context sample_count pool st tr c with
      | none => rfl
      | some r =>
          rcases r with ⟨st2, tr2, calls⟩
          simp only [Option.map_some']
          rw [ih st2 tr2 (fun i b o hm => by
            rw [step_inputs_length env context sample_count pool st tr c st2 tr2
              calls hstep]
            exact hidx i b o (List.mem_cons_of_mem c hm))]
          cases hrest : runRenderCommands env context sample_count pool st2 tr2 cs with
          | none => rfl
          | some r3 =>
              rcases r3 with ⟨st3, tr3, more⟩
              simp

/-- Witness for C4 at the fixtures: a bind/pipeline/draw sequence takes the
same path through both APIs. -/
theorem c4_amended_equivalence_witness :
    runIncremental testEnv [] (passOf 0 testCtx 1 testState TrackerSet.empty)
        [RenderCommand.SetIndexBuffer 0 0, RenderCommand.SetPipeline 0,
         RenderCommand.Draw 0 0 0 0] =
      (runRenderCommands testEnv testCtx 1 [] testState TrackerSet.empty
          [RenderCommand.SetIndexBuffer 0 0, RenderCommand.SetPipeline 0,
           RenderCommand.Draw 0 0 0 0]).map
        (fun r => (passOf 0 testCtx 1 r.1 r.2.1, r.2.2)) :=
  c4_amended_equivalence testEnv [] 0 testCtx 1
    [RenderCommand.SetIndexBuffer 0 0, RenderCommand.SetPipeline 0,
     RenderCommand.Draw 0 0 0 0] testState TrackerSet.empty
    (by intro i b o h; simp at h)

end WgpuRender
